import Mathlib

/-!
# Verification of the nightsky Ephemeris & Visibility Engine

Shallow embedding of `frontend/js/astronomy.js` (the `Astronomy` object).
JavaScript numbers are modelled as exact rationals (`ℚ`) where every
operation of the source stays rational (calendar and Julian-date
arithmetic, table lookups, parsing), and as real numbers (`ℝ`) where the
source uses transcendental functions.  `Math.floor` is `Int.floor`,
`Math.round x` is `⌊x + 1/2⌋` (JavaScript rounds half-way cases toward
positive infinity), JavaScript `%` is truncated remainder.  Division is
exact except where a claim scrutinises the IEEE behaviour of `x / 0`;
there the result is modelled by `JsDivR` (finite value, `±Infinity`, or
`NaN`, the last arising exactly from `0 / 0`).  `Math.asin` / `Math.acos`
of an out-of-range argument give `NaN`, modelled as `Option.none`.

A JavaScript `Date` is a civil UTC timestamp; `epochMs` is `getTime()`.
-/

namespace Astronomy

/-- A JavaScript `Date` seen through its UTC accessors: `getUTCFullYear`,
`getUTCMonth` (stored here 1-based as in the formulas), `getUTCDate`,
`getUTCHours`, `getUTCMinutes`, `getUTCSeconds`, `getUTCMilliseconds`. -/
structure JsDate where
  year : ℤ
  month : ℤ
  day : ℤ
  hour : ℤ
  minute : ℤ
  second : ℤ
  ms : ℤ
  deriving DecidableEq, Repr

/-- Gregorian leap-year rule, as the ECMAScript calendar uses it. -/
def isLeap (y : ℤ) : Bool :=
  (y % 4 == 0 && y % 100 != 0) || y % 400 == 0

/-- Number of days in a civil month (for validity hypotheses). -/
def daysInMonth (y m : ℤ) : ℤ :=
  if m = 1 then 31 else if m = 2 then (if isLeap y then 29 else 28)
  else if m = 3 then 31 else if m = 4 then 30 else if m = 5 then 31
  else if m = 6 then 30 else if m = 7 then 31 else if m = 8 then 31
  else if m = 9 then 30 else if m = 10 then 31 else if m = 11 then 30
  else 31

/-- A civil timestamp with in-range time-of-day and day-of-month fields. -/
def ValidDate (t : JsDate) : Prop :=
  1 ≤ t.month ∧ t.month ≤ 12 ∧ 1 ≤ t.day ∧ t.day ≤ daysInMonth t.year t.month ∧
  0 ≤ t.hour ∧ t.hour ≤ 23 ∧ 0 ≤ t.minute ∧ t.minute ≤ 59 ∧
  0 ≤ t.second ∧ t.second ≤ 59 ∧ 0 ≤ t.ms ∧ t.ms ≤ 999

/-- Days from the Unix epoch 1970-01-01 for a civil date (the ECMAScript
`MakeDay` computation; Lean's `Int` division is floor division for the
positive divisors used here, matching the mathematical formulation). -/
def daysFromCivil (y m d : ℤ) : ℤ :=
  let y2 := if m ≤ 2 then y - 1 else y
  let era := y2 / 400
  let yoe := y2 - era * 400
  let mp := if m ≤ 2 then m + 9 else m - 3
  let doy := (153 * mp + 2) / 5 + d - 1
  let doe := yoe * 365 + yoe / 4 - yoe / 100 + doy
  era * 146097 + doe - 719468

/-- `Date.prototype.getTime`: milliseconds since the Unix epoch. -/
def epochMs (t : JsDate) : ℤ :=
  86400000 * daysFromCivil t.year t.month t.day +
    3600000 * t.hour + 60000 * t.minute + 1000 * t.second + t.ms

/-- Civil date from a day count since the Unix epoch (inverse of
`daysFromCivil`, the ECMAScript `YearFromTime`/`MonthFromTime`/
`DateFromTime` decomposition). -/
def civilFromDays (z : ℤ) : ℤ × ℤ × ℤ :=
  let z2 := z + 719468
  let era := z2 / 146097
  let doe := z2 - era * 146097
  let yoe := (doe - doe / 1460 + doe / 36524 - doe / 146096) / 365
  let y := yoe + era * 400
  let doy := doe - (365 * yoe + yoe / 4 - yoe / 100)
  let mp := (5 * doy + 2) / 153
  let d := doy - (153 * mp + 2) / 5 + 1
  let m := if mp < 10 then mp + 3 else mp - 9
  (if m ≤ 2 then y + 1 else y, m, d)

/-- A `Date` reconstructed from a millisecond timestamp. -/
def msToDate (t : ℤ) : JsDate :=
  let days := t / 86400000
  let rem := t % 86400000
  let c := civilFromDays days
  ⟨c.1, c.2.1, c.2.2, rem / 3600000, rem % 3600000 / 60000,
    rem % 60000 / 1000, rem % 1000⟩

/-- `new Date(d.getTime() + delta)`. -/
def addMs (t : JsDate) (delta : ℤ) : JsDate :=
  msToDate (epochMs t + delta)

/-- `d.setUTCHours(0, 0, 0, 0)`: midnight UTC of the same civil day. -/
def startOfUTCDay (t : JsDate) : JsDate :=
  ⟨t.year, t.month, t.day, 0, 0, 0, 0⟩

/-- `dateToJulian` (astronomy.js): Meeus chapter 7 Julian Date of a civil
UTC timestamp.  Exact rational arithmetic. -/
def dateToJulian (date : JsDate) : ℚ :=
  let y := date.year
  let m := date.month
  let d := date.day
  let h : ℚ := (date.hour : ℚ) + (date.minute : ℚ) / 60 +
    (date.second : ℚ) / 3600 + (date.ms : ℚ) / 3600000
  let jy := if m ≤ 2 then y - 1 else y
  let jm := if m ≤ 2 then m + 12 else m
  let a := ⌊(jy : ℚ) / 100⌋
  let b := 2 - a + ⌊(a : ℚ) / 4⌋
  (⌊(365.25 : ℚ) * ((jy : ℚ) + 4716)⌋ : ℚ) +
    (⌊(30.6001 : ℚ) * ((jm : ℚ) + 1)⌋ : ℚ) +
    (d : ℚ) + h / 24 + (b : ℚ) - 1524.5

/-- `julianToDate` (astronomy.js): Meeus inverse, producing the civil
fields handed to `Date.UTC` (milliseconds are dropped by the source). -/
def julianToDate (jd : ℚ) : JsDate :=
  let z := ⌊jd + 0.5⌋
  let f : ℚ := jd + 0.5 - (z : ℚ)
  let a := if z ≥ 2299161 then
      z + 1 + ⌊((z : ℚ) - 1867216.25) / 36524.25⌋ -
        ⌊(⌊((z : ℚ) - 1867216.25) / 36524.25⌋ : ℚ) / 4⌋
    else z
  let b := a + 1524
  let c := ⌊((b : ℚ) - 122.1) / 365.25⌋
  let d := ⌊(365.25 : ℚ) * (c : ℚ)⌋
  let e := ⌊((b : ℚ) - (d : ℚ)) / 30.6001⌋
  let day : ℚ := (b : ℚ) - (d : ℚ) - (⌊(30.6001 : ℚ) * (e : ℚ)⌋ : ℚ) + f
  let month := if e < 14 then e - 1 else e - 13
  let year := if month > 2 then c - 4716 else c - 4715
  let dayFrac : ℚ := day - (⌊day⌋ : ℚ)
  let hours : ℚ := dayFrac * 24
  let mins : ℚ := (hours - (⌊hours⌋ : ℚ)) * 60
  let secs : ℚ := (mins - (⌊mins⌋ : ℚ)) * 60
  ⟨year, month, ⌊day⌋, ⌊hours⌋, ⌊mins⌋, ⌊secs⌋, 0⟩

/-- Milliseconds of the time-of-day fields (proof abbreviation). -/
def timeMs (t : JsDate) : ℤ :=
  3600000 * t.hour + 60000 * t.minute + 1000 * t.second + t.ms

/-- The integer (noon-epoch) Julian Day number computed by `dateToJulian`,
with every `Math.floor` of a rational expressed as integer division. -/
def jdnInt (y m d : ℤ) : ℤ :=
  let jy := if m ≤ 2 then y - 1 else y
  let jm := if m ≤ 2 then m + 12 else m
  (1461 * (jy + 4716)) / 4 + (306001 * (jm + 1)) / 10000 + d +
    (2 - jy / 100 + (jy / 100) / 4) - 1524

/-- The instant lies on or after the Gregorian reform date 1582-10-15. -/
def GregorianEra (t : JsDate) : Prop :=
  1582 < t.year ∨ (t.year = 1582 ∧ (10 < t.month ∨ (t.month = 10 ∧ 15 ≤ t.day)))

/-- The civil part of `julianToDate` on an integer day number `z ≥ 2299161`,
with every `Math.floor` of a rational expressed as integer division
(year, month, day). -/
def meeusCivil (z : ℤ) : ℤ × ℤ × ℤ :=
  let alpha := (4 * z - 7468865) / 146097
  let a := z + 1 + alpha - alpha / 4
  let b := a + 1524
  let c := (20 * b - 2442) / 7305
  let dd := (1461 * c) / 4
  let e := (10000 * (b - dd)) / 306001
  let dy := b - dd - (306001 * e) / 10000
  let mo := if e < 14 then e - 1 else e - 13
  let yr := if mo > 2 then c - 4716 else c - 4715
  (yr, mo, dy)

/-- The hour field `julianToDate` extracts from a day fraction. -/
def hoursFloor (f : ℚ) : ℤ := ⌊f * 24⌋

/-- The minute field `julianToDate` extracts from a day fraction. -/
def minsFloor (f : ℚ) : ℤ := ⌊(f * 24 - ((⌊f * 24⌋ : ℤ) : ℚ)) * 60⌋

/-- The second field `julianToDate` extracts from a day fraction. -/
def secsFloor (f : ℚ) : ℤ :=
  ⌊((f * 24 - ((⌊f * 24⌋ : ℤ) : ℚ)) * 60 -
    ((⌊(f * 24 - ((⌊f * 24⌋ : ℤ) : ℚ)) * 60⌋ : ℤ) : ℚ)) * 60⌋

-- ===========================================================================
-- Real-number layer: angles, sidereal time, obliquity, coordinates
-- ===========================================================================

noncomputable section

open Real

open scoped Classical

/-- `toRadians` (astronomy.js): `degrees * DEG_TO_RAD`. -/
def toRadians (degrees : ℝ) : ℝ := degrees * (Real.pi / 180)

/-- `toDegrees` (astronomy.js): `radians * RAD_TO_DEG`. -/
def toDegrees (radians : ℝ) : ℝ := radians * (180 / Real.pi)

/-- JavaScript truncation toward zero (the rounding of the `%` operator). -/
def jsTrunc (x : ℝ) : ℤ := if 0 ≤ x then ⌊x⌋ else ⌈x⌉

/-- JavaScript remainder `a % b`: same sign as the dividend. -/
def jsMod (a b : ℝ) : ℝ := a - b * (jsTrunc (a / b) : ℝ)

/-- `normalizeAngle` (astronomy.js): wrap an angle to `[0, 360)`. -/
def normalizeAngle (angle : ℝ) : ℝ :=
  let a := jsMod angle 360
  if a < 0 then a + 360 else a

/-- `normalizeAngleSigned` (astronomy.js): wrap to `(-180, 180]`. -/
def normalizeAngleSigned (angle : ℝ) : ℝ :=
  let a := normalizeAngle angle
  if a > 180 then a - 360 else a

/-- `julianCenturies` (astronomy.js): Julian centuries since J2000.0. -/
def julianCenturies (jd : ℝ) : ℝ := (jd - 2451545) / 36525

/-- `gmst` (astronomy.js): IAU 1982 Greenwich Mean Sidereal Time,
degrees in `[0, 360)`. -/
def gmst (jd : ℝ) : ℝ :=
  let d := jd - 2451545
  let t := d / 36525
  normalizeAngle (280.46061837 + 360.98564736629 * d +
    0.000387933 * t * t - t * t * t / 38710000)

/-- `lst` (astronomy.js): Local Sidereal Time in degrees. -/
def lst (jd longitude : ℝ) : ℝ := normalizeAngle (gmst jd + longitude)

/-- `meanObliquity` (astronomy.js): IAU 1980 mean obliquity in degrees. -/
def meanObliquity (jd : ℝ) : ℝ :=
  let t := julianCenturies jd
  23.439291111 + (-46.8150 * t + -0.00059 * t * t + 0.001813 * t * t * t) / 3600

/-- `Math.atan2 y x`. -/
def jsAtan2 (y x : ℝ) : ℝ :=
  if 0 < x then Real.arctan (y / x)
  else if x < 0 then
    (if 0 ≤ y then Real.arctan (y / x) + Real.pi else Real.arctan (y / x) - Real.pi)
  else
    (if 0 < y then Real.pi / 2 else if y < 0 then -(Real.pi / 2) else 0)

/-- `Math.asin`: `NaN` (modelled `none`) outside `[-1, 1]`. -/
def jsAsin (x : ℝ) : Option ℝ :=
  if x < -1 ∨ 1 < x then none else some (Real.arcsin x)

/-- Result of an IEEE division that may leave the finite reals. -/
inductive JsDivR where
  | nan : JsDivR
  | pinf : JsDivR
  | ninf : JsDivR
  | val : ℝ → JsDivR

/-- IEEE division: `0 / 0` is `NaN`, `x / 0` is `±Infinity` for `x ≠ 0`. -/
def jsDiv (num den : ℝ) : JsDivR :=
  if den = 0 then
    (if num = 0 then JsDivR.nan else if 0 < num then JsDivR.pinf else JsDivR.ninf)
  else JsDivR.val (num / den)

/-- `x < c` on an IEEE division result (`NaN` comparisons are false). -/
def JsDivR.ltVal (v : JsDivR) (c : ℝ) : Prop :=
  match v with
  | JsDivR.nan => False
  | JsDivR.pinf => False
  | JsDivR.ninf => True
  | JsDivR.val x => x < c

/-- `x > c` on an IEEE division result (`NaN` comparisons are false). -/
def JsDivR.gtVal (v : JsDivR) (c : ℝ) : Prop :=
  match v with
  | JsDivR.nan => False
  | JsDivR.pinf => True
  | JsDivR.ninf => False
  | JsDivR.val x => c < x

/-- `Math.acos` in degrees: `NaN` outside `[-1, 1]`. -/
def jsAcosDeg : JsDivR → Option ℝ
  | JsDivR.nan => none
  | JsDivR.pinf => none
  | JsDivR.ninf => none
  | JsDivR.val x => if x < -1 ∨ 1 < x then none else some (toDegrees (Real.arccos x))

/-- `raDecToAltAz` (astronomy.js).  The altitude is
`asin(sin δ sin φ + cos δ cos φ cos H)` with the `asin` argument passed
**raw** (only the out-of-range `NaN` domain of `Math.asin` is modelled,
by `jsAsin`); the azimuth is the `acos` of the quotient
`(sin δ − sin φ sin h) / (cos φ cos h)` clamped by
`Math.max(-1, Math.min(1, ·))`, mirrored when `sin H > 0`.  The division
is mathematical real division: in the source's IEEE arithmetic the
denominator `cos φ · cos(asin sinAlt)` is never exactly zero (`Math.cos`
of a double never returns exactly `0`), so no division-by-zero path
exists to model. -/
def raDecToAltAz (ra dec lat lstv : ℝ) : Option ℝ × Option ℝ :=
  let ha := toRadians (lstv - ra)
  let decRad := toRadians dec
  let latRad := toRadians lat
  let sinAlt := Real.sin decRad * Real.sin latRad +
    Real.cos decRad * Real.cos latRad * Real.cos ha
  match jsAsin sinAlt with
  | none => (none, none)
  | some altRad =>
    let cosAz := (Real.sin decRad - Real.sin latRad * sinAlt) /
      (Real.cos latRad * Real.cos altRad)
    let az := toDegrees (Real.arccos (max (-1) (min 1 cosAz)))
    (some (toDegrees altRad), some (if 0 < Real.sin ha then 360 - az else az))

/-- `altAzToRaDec` (astronomy.js): structural inverse of `raDecToAltAz`,
with the same structure — the `asin` argument raw, only the `acos`
argument clamped, the quotient taken as mathematical division. -/
def altAzToRaDec (alt az lat lstv : ℝ) : Option ℝ × Option ℝ :=
  let altRad := toRadians alt
  let azRad := toRadians az
  let latRad := toRadians lat
  let sinDec := Real.sin altRad * Real.sin latRad +
    Real.cos altRad * Real.cos latRad * Real.cos azRad
  match jsAsin sinDec with
  | none => (none, none)
  | some decRad =>
    let cosH := (Real.sin altRad - Real.sin latRad * sinDec) /
      (Real.cos latRad * Real.cos decRad)
    let ha := toDegrees (Real.arccos (max (-1) (min 1 cosH)))
    let ha2 := if 0 < Real.sin azRad then 360 - ha else ha
    (some (normalizeAngle (lstv - ha2)), some (toDegrees decRad))

/-- `angularDistance` (astronomy.js): spherical law of cosines with the
clamped `acos`, in degrees. -/
def angularDistance (ra1 dec1 ra2 dec2 : ℝ) : ℝ :=
  let dec1Rad := toRadians dec1
  let dec2Rad := toRadians dec2
  let dRa := toRadians (ra2 - ra1)
  let cosD := Real.sin dec1Rad * Real.sin dec2Rad +
    Real.cos dec1Rad * Real.cos dec2Rad * Real.cos dRa
  toDegrees (Real.arccos (max (-1) (min 1 cosD)))

-- ===========================================================================
-- Sun position, transit, rise/set, twilight
-- ===========================================================================

/-- Sun position record returned by `approximateSunPosition`. -/
structure SunPos where
  ra : ℝ
  dec : ℝ
  longitude : ℝ
  distance : ℝ

/-- `approximateSunPosition` (astronomy.js): low-precision solar
ephemeris.  The `asin` argument `sin ε sin λ` always lies in `[-1, 1]`,
so `Real.arcsin` coincides with `Math.asin` here. -/
def approximateSunPosition (date : JsDate) : SunPos :=
  let jd : ℝ := ((dateToJulian date : ℚ) : ℝ)
  let n := jd - 2451545
  let L := normalizeAngle (280.461 + 0.9856474 * n)
  let g := normalizeAngle (357.528 + 0.9856003 * n)
  let gRad := toRadians g
  let C := 1.915 * Real.sin gRad + 0.020 * Real.sin (2 * gRad)
  let lambda := L + C
  let epsilonRad := toRadians (meanObliquity jd)
  let lambdaRad := toRadians lambda
  let ra := toDegrees (jsAtan2 (Real.cos epsilonRad * Real.sin lambdaRad)
    (Real.cos lambdaRad))
  let dec := toDegrees (Real.arcsin (Real.sin epsilonRad * Real.sin lambdaRad))
  let distance := 1.00014 - 0.01671 * Real.cos gRad - 0.00014 * Real.cos (2 * gRad)
  ⟨normalizeAngle ra, dec, lambda, distance⟩

/-- The sidereal-to-solar time ratio constant of the source
(`1.00273790935`; the source names it with capital letters). -/
def siderealRatio : ℝ := 1.00273790935

/-- `calculateTransit` (astronomy.js): epoch milliseconds of the moment
the object's hour angle is zero, found from the LST at UTC midnight and
scaled from sidereal to solar time. -/
def calculateTransit (ra lon : ℝ) (date : JsDate) : ℝ :=
  let midnight := startOfUTCDay date
  let jd : ℝ := ((dateToJulian midnight : ℚ) : ℝ)
  let lst0 := lst jd lon
  let ha0 := ra - lst0
  let ha1 := if ha0 < 0 then ha0 + 360 else ha0
  let ha2 := if ha1 > 180 then ha1 - 360 else ha1
  ((epochMs midnight : ℤ) : ℝ) + ha2 / 15 * 3600000 / siderealRatio

/-- Result of `calculateRiseTransitSet` (three-way tagged outcome). -/
structure RTSResult where
  circumpolar : Bool
  neverRises : Bool
  rise : Option ℝ
  transit : Option ℝ
  set : Option ℝ

/-- `calculateRiseTransitSet` (astronomy.js).  `cos H` is the IEEE
quotient `(sin h₀ − sin φ sin δ) / (cos φ cos δ)`; the normal branch
takes `H = acos(cos H)` in degrees and offsets the transit by
`H / 15 * 3600000` milliseconds on both sides — the offset is **not**
divided by the sidereal ratio (only the transit itself is). -/
def calculateRiseTransitSet (ra dec lat lon : ℝ) (date : JsDate)
    (horizonAngle : ℝ) : RTSResult :=
  let decRad := toRadians dec
  let latRad := toRadians lat
  let h0Rad := toRadians horizonAngle
  let cosH := jsDiv (Real.sin h0Rad - Real.sin latRad * Real.sin decRad)
    (Real.cos latRad * Real.cos decRad)
  if cosH.ltVal (-1) then
    ⟨true, false, none, some (calculateTransit ra lon date), none⟩
  else if cosH.gtVal 1 then
    ⟨false, true, none, none, none⟩
  else
    let H := jsAcosDeg cosH
    let transit := calculateTransit ra lon date
    let riseOffset := H.map (fun h => h / 15 * 3600000)
    ⟨false, false, riseOffset.map (fun o => transit - o), some transit,
      riseOffset.map (fun o => transit + o)⟩

/-- Result of `calculateSunRiseSet`. -/
structure SunRiseSet where
  rise : Option ℝ
  set : Option ℝ
  polarDay : Bool
  polarNight : Bool

/-- `calculateSunRiseSet` (astronomy.js): hour-angle rise/set for a given
horizon angle, with polar-day/night flags when `cos H` is out of range. -/
def calculateSunRiseSet (sunDec lat lon : ℝ) (date : JsDate) (h0 : ℝ) :
    SunRiseSet :=
  let decRad := toRadians sunDec
  let latRad := toRadians lat
  let h0Rad := toRadians h0
  let cosH := jsDiv (Real.sin h0Rad - Real.sin latRad * Real.sin decRad)
    (Real.cos latRad * Real.cos decRad)
  if cosH.ltVal (-1) ∨ cosH.gtVal 1 then
    ⟨none, none, decide (cosH.ltVal (-1)) , decide (cosH.gtVal 1)⟩
  else
    let H := jsAcosDeg cosH
    let sunPos := approximateSunPosition date
    let transit := calculateTransit sunPos.ra lon date
    let riseOffset := H.map (fun h => h / 15 * 3600000)
    ⟨riseOffset.map (fun o => transit - o), riseOffset.map (fun o => transit + o),
      false, false⟩

/-- The guard of the `darknessDuration` block in `calculateTwilightTimes`:
both of today's astronomical dusk and dawn (horizon angle −18°) are
non-`null` (a JavaScript `Date` is always truthy). -/
def twilightGuard (lat lon : ℝ) (date : JsDate) : Prop :=
  let times := calculateSunRiseSet (approximateSunPosition date).dec lat lon date (-18)
  times.set.isSome ∧ times.rise.isSome

/-- Depth of the recursion performed by `calculateTwilightTimes` through
its `darknessDuration` block: whenever the guard holds, the source calls
itself on the next civil day (`setDate(getDate() + 1)`, i.e. +86400000 ms
in a UTC runtime), and that call again contains the same block.  `fuel`
only bounds the observation window. -/
def twilightRecDepth : ℕ → ℝ → ℝ → JsDate → ℕ
  | 0, _, _, _ => 0
  | n + 1, lat, lon, date =>
    if twilightGuard lat lon date then
      1 + twilightRecDepth n lat lon (addMs date 86400000)
    else 0

/-- Twilight events record (result of `calculateTwilightTimes`). -/
structure TwilightResult where
  sunrise : Option ℝ
  sunset : Option ℝ
  civilDawn : Option ℝ
  civilDusk : Option ℝ
  nauticalDawn : Option ℝ
  nauticalDusk : Option ℝ
  astronomicalDawn : Option ℝ
  astronomicalDusk : Option ℝ
  darknessDuration : Option ℝ

/-- `calculateTwilightTimes` (astronomy.js), with `fuel` making the
unbounded self-recursion of the `darknessDuration` block well-founded;
out of fuel the block yields no duration. -/
def calculateTwilightTimes : ℕ → ℝ → ℝ → JsDate → TwilightResult
  | fuel, lat, lon, date =>
    let dec := (approximateSunPosition date).dec
    let sun := calculateSunRiseSet dec lat lon date (-0.8333)
    let civil := calculateSunRiseSet dec lat lon date (-6)
    let naut := calculateSunRiseSet dec lat lon date (-12)
    let astro := calculateSunRiseSet dec lat lon date (-18)
    let darkness :=
      match fuel, astro.set, astro.rise with
      | fuel' + 1, some dusk, some _ =>
        match (calculateTwilightTimes fuel' lat lon (addMs date 86400000)).astronomicalDawn with
        | some nextDawn => some ((nextDawn - dusk) / 3600000)
        | none => none
      | _, _, _ => none
    ⟨sun.rise, sun.set, civil.rise, civil.set, naut.rise, naut.set,
      astro.rise, astro.set, darkness⟩

-- ===========================================================================
-- Planetary ephemeris
-- ===========================================================================

/-- Keplerian elements and rates of one planet (J2000.0, JPL table). -/
structure PlanetData where
  a : ℝ
  e : ℝ
  I : ℝ
  L : ℝ
  longPeri : ℝ
  longNode : ℝ
  aRate : ℝ
  eRate : ℝ
  IRate : ℝ
  LRate : ℝ
  longPeriRate : ℝ
  longNodeRate : ℝ
  siderealPeriod : ℝ
  synodicPeriod : Option ℝ

/-- ASCII lower case of one character. -/
def lowerChar (c : Char) : Char :=
  if 'A' ≤ c ∧ c ≤ 'Z' then Char.ofNat (c.toNat + 32) else c

/-- ASCII lower-casing, as `toLowerCase` acts on planet names. -/
def jsToLower (s : String) : String := String.mk (s.data.map lowerChar)

/-- The `PLANETS` constant table (astronomy.js), keyed by lower-case name. -/
def PLANETS (name : String) : Option PlanetData :=
  if name = "mercury" then some ⟨0.38709927, 0.20563593, 7.00497902, 252.25032350,
    77.45779628, 48.33076593, 0.00000037, 0.00001906, -0.00594749, 149472.67411175,
    0.16047689, -0.12534081, 87.969, some 115.88⟩
  else if name = "venus" then some ⟨0.72333566, 0.00677672, 3.39467605, 181.97909950,
    131.60246718, 76.67984255, 0.00000390, -0.00004107, -0.00078890, 58517.81538729,
    0.00268329, -0.27769418, 224.701, some 583.92⟩
  else if name = "earth" then some ⟨1.00000261, 0.01671123, -0.00001531, 100.46457166,
    102.93768193, 0.0, 0.00000562, -0.00004392, -0.01294668, 35999.37244981,
    0.32327364, 0.0, 365.256, none⟩
  else if name = "mars" then some ⟨1.52371034, 0.09339410, 1.84969142, -4.55343205,
    -23.94362959, 49.55953891, 0.00001847, 0.00007882, -0.00813131, 19140.30268499,
    0.44441088, -0.29257343, 686.980, some 779.94⟩
  else if name = "jupiter" then some ⟨5.20288700, 0.04838624, 1.30439695, 34.39644051,
    14.72847983, 100.47390909, -0.00011607, -0.00013253, -0.00183714, 3034.74612775,
    0.21252668, 0.20469106, 4332.59, some 398.88⟩
  else if name = "saturn" then some ⟨9.53667594, 0.05386179, 2.48599187, 49.95424423,
    92.59887831, 113.66242448, -0.00125060, -0.00050991, 0.00193609, 1222.49362201,
    -0.41897216, -0.28867794, 10759.22, some 378.09⟩
  else if name = "uranus" then some ⟨19.18916464, 0.04725744, 0.77263783, 313.23810451,
    170.95427630, 74.01692503, -0.00196176, -0.00004397, -0.00242939, 428.48202785,
    0.40805281, 0.04240589, 30688.5, some 369.66⟩
  else if name = "neptune" then some ⟨30.06992276, 0.00859048, 1.77004347, -55.12002969,
    44.96476227, 131.78422574, 0.00026291, 0.00005105, 0.00035372, 218.45945325,
    -0.32241464, -0.00508664, 60182.0, some 367.49⟩
  else none

/-- The `PLANET_RADII` table in km (`|| 0` default for unknown names). -/
def planetRadiusKm (name : String) : ℝ :=
  if name = "mercury" then 2439.7 else if name = "venus" then 6051.8
  else if name = "earth" then 6371.0 else if name = "mars" then 3389.5
  else if name = "jupiter" then 69911 else if name = "saturn" then 58232
  else if name = "uranus" then 25362 else if name = "neptune" then 24622
  else 0

/-- `getPlanetElements` (astronomy.js): apply the secular rates over
Julian centuries since J2000.0 and renormalize the mean longitude. -/
def getPlanetElements (name : String) (jd : ℝ) : Option PlanetData :=
  (PLANETS (jsToLower name)).map (fun p =>
    let T := julianCenturies jd
    { p with
      a := p.a + p.aRate * T
      e := p.e + p.eRate * T
      I := p.I + p.IRate * T
      L := normalizeAngle (p.L + p.LRate * T)
      longPeri := p.longPeri + p.longPeriRate * T
      longNode := p.longNode + p.longNodeRate * T })

/-- The Newton–Raphson loop of `calculateHeliocentricPosition`: at most
`fuel` iterations (10 in the source), stopping after the first update
whose correction is below `1e-4` degrees. -/
def keplerLoop : ℕ → ℝ → ℝ → ℝ → ℝ
  | 0, _, _, E => E
  | n + 1, M, e, E =>
    let ERad := toRadians E
    let dE := (M - E + toDegrees (e * Real.sin ERad)) / (1 - e * Real.cos ERad)
    let E2 := E + dE
    if |dE| < 0.0001 then E2 else keplerLoop n M e E2

/-- Heliocentric position record. -/
structure HelioPos where
  longitude : ℝ
  latitude : ℝ
  distance : ℝ
  x : ℝ
  y : ℝ
  z : ℝ
  trueAnomaly : ℝ
  meanAnomaly : ℝ

/-- `calculateHeliocentricPosition` (astronomy.js): Kepler solver plus
rotation into ecliptic coordinates. -/
def calculateHeliocentricPosition (planetName : String) (date : JsDate) :
    Option HelioPos :=
  let jd : ℝ := ((dateToJulian date : ℚ) : ℝ)
  (getPlanetElements planetName jd).map (fun elements =>
    let omega := elements.longPeri - elements.longNode
    let M := normalizeAngle (elements.L - elements.longPeri)
    let MRad := toRadians M
    let E0 := M + toDegrees elements.e * Real.sin MRad
    let E := keplerLoop 10 M elements.e E0
    let ERad := toRadians E
    let xv := elements.a * (Real.cos ERad - elements.e)
    let yv := elements.a * Real.sqrt (1 - elements.e * elements.e) * Real.sin ERad
    let v := toDegrees (jsAtan2 yv xv)
    let r := Real.sqrt (xv * xv + yv * yv)
    let omegaRad := toRadians omega
    let nodeRad := toRadians elements.longNode
    let iRad := toRadians elements.I
    let vRad := toRadians v
    let xh := r * (Real.cos nodeRad * Real.cos (vRad + omegaRad) -
      Real.sin nodeRad * Real.sin (vRad + omegaRad) * Real.cos iRad)
    let yh := r * (Real.sin nodeRad * Real.cos (vRad + omegaRad) +
      Real.cos nodeRad * Real.sin (vRad + omegaRad) * Real.cos iRad)
    let zh := r * Real.sin (vRad + omegaRad) * Real.sin iRad
    let lonEcl := toDegrees (jsAtan2 yh xh)
    let latEcl := toDegrees (jsAtan2 zh (Real.sqrt (xh * xh + yh * yh)))
    ⟨normalizeAngle lonEcl, latEcl, r, xh, yh, zh, v, M⟩)

/-- Geocentric planet position record. -/
structure PlanetPos where
  ra : ℝ
  dec : ℝ
  distance : ℝ
  distanceSun : ℝ
  elongation : ℝ
  phaseAngle : ℝ
  illumination : ℝ
  angularDiameter : ℝ
  eclipticLongitude : ℝ
  eclipticLatitude : ℝ

/-- `calculatePlanetPosition` (astronomy.js).  `"earth"` (in any letter
case) is a defined no-op returning `null`. -/
def calculatePlanetPosition (planetName : String) (date : JsDate) :
    Option PlanetPos :=
  if jsToLower planetName = "earth" then none
  else
    let jd : ℝ := ((dateToJulian date : ℚ) : ℝ)
    match calculateHeliocentricPosition planetName date,
        calculateHeliocentricPosition "earth" date with
    | some planet, some earth =>
      let xg := planet.x - earth.x
      let yg := planet.y - earth.y
      let zg := planet.z - earth.z
      let dist := Real.sqrt (xg * xg + yg * yg + zg * zg)
      let lonEcl := toDegrees (jsAtan2 yg xg)
      let latEcl := toDegrees (jsAtan2 zg (Real.sqrt (xg * xg + yg * yg)))
      let epsilonRad := toRadians (meanObliquity jd)
      let lonRad := toRadians lonEcl
      let latRad := toRadians latEcl
      let ra := toDegrees (jsAtan2
        (Real.sin lonRad * Real.cos epsilonRad - Real.tan latRad * Real.sin epsilonRad)
        (Real.cos lonRad))
      let dec := toDegrees (Real.arcsin (Real.sin latRad * Real.cos epsilonRad +
        Real.cos latRad * Real.sin epsilonRad * Real.sin lonRad))
      let sunPos := approximateSunPosition date
      let elong := angularDistance (normalizeAngle ra) dec sunPos.ra sunPos.dec
      let r := planet.distance
      let R := dist
      let s := earth.distance
      let phaseAngle := toDegrees (Real.arccos ((r * r + R * R - s * s) / (2 * r * R)))
      let illum := (1 + Real.cos (toRadians phaseAngle)) / 2 * 100
      let angularDiam := 2 * toDegrees (Real.arctan
        (planetRadiusKm (jsToLower planetName) / (dist * 149597870.7))) * 3600
      some ⟨normalizeAngle ra, dec, dist, r, elong, phaseAngle, illum,
        angularDiam, normalizeAngle lonEcl, latEcl⟩
    | _, _ => none

/-- The day-stepped search loop of `calculateNextPlanetaryEvent`, with the
remaining day count as fuel (`day < maxDays` in the source). -/
def nextEventLoop (planetName : String) (eventOpposition : Bool)
    (targetElong : ℝ) : ℕ → JsDate → Option JsDate
  | 0, _ => none
  | n + 1, date =>
    match calculatePlanetPosition planetName date with
    | none => nextEventLoop planetName eventOpposition targetElong n (addMs date 86400000)
    | some pos =>
      let diff := |pos.elongation - targetElong|
      let next := addMs date 86400000
      let found :=
        if diff < 1 then
          match calculatePlanetPosition planetName next with
          | some nextPos =>
            if eventOpposition then decide (nextPos.elongation < pos.elongation)
            else decide (pos.elongation < nextPos.elongation)
          | none => false
        else false
      if found then some date
      else nextEventLoop planetName eventOpposition targetElong n next

/-- `calculateNextPlanetaryEvent` (astronomy.js): inferior planets
(`a < 1`) have no opposition and return `null` before any search. -/
def calculateNextPlanetaryEvent (planetName : String) (startDate : JsDate)
    (event : String) : Option JsDate :=
  match PLANETS (jsToLower planetName) with
  | none => none
  | some planet =>
    if planet.a < 1 ∧ event = "opposition" then none
    else
      let targetElong : ℝ := if event = "opposition" then 180 else 0
      let maxDays : ℝ := match planet.synodicPeriod with
        | some p => p * 1.5
        | none => 800
      nextEventLoop planetName (event = "opposition") targetElong
        (Int.toNat ⌈maxDays⌉) startDate

-- ===========================================================================
-- Bortle scale and visibility scoring
-- ===========================================================================

/-- One entry of the `BORTLE_SCALE` table (numeric fields only). -/
structure BortleInfo where
  limitingMag : ℚ
  sqm : ℚ
  deriving DecidableEq

/-- The `BORTLE_SCALE` table (astronomy.js), keyed 1–9. -/
def BORTLE_SCALE (k : ℤ) : Option BortleInfo :=
  if k = 1 then some ⟨7.8, 21.99⟩
  else if k = 2 then some ⟨7.3, 21.89⟩
  else if k = 3 then some ⟨6.8, 21.69⟩
  else if k = 4 then some ⟨6.3, 21.25⟩
  else if k = 5 then some ⟨5.8, 20.49⟩
  else if k = 6 then some ⟨5.3, 19.50⟩
  else if k = 7 then some ⟨4.8, 18.94⟩
  else if k = 8 then some ⟨4.3, 18.38⟩
  else if k = 9 then some ⟨4.0, 17.80⟩
  else none

/-- `Math.round`: round half toward positive infinity. -/
def jsRound (x : ℝ) : ℤ := ⌊x + 1/2⌋

/-- `getBortleInfo` (astronomy.js):
`BORTLE_SCALE[Math.max(1, Math.min(9, Math.round(bortleClass)))]`. -/
def getBortleInfo (bortleClass : ℝ) : Option BortleInfo :=
  BORTLE_SCALE (max 1 (min 9 (jsRound bortleClass)))

/-- `sqmToBortle` (astronomy.js): descending-threshold scan. -/
def sqmToBortle (sqm : ℝ) : ℤ :=
  if 21.99 ≤ sqm then 1 else if 21.89 ≤ sqm then 2 else if 21.69 ≤ sqm then 3
  else if 21.25 ≤ sqm then 4 else if 20.49 ≤ sqm then 5 else if 19.50 ≤ sqm then 6
  else if 18.94 ≤ sqm then 7 else if 18.38 ≤ sqm then 8 else 9

/-- `bortleToSqm` (astronomy.js): `getBortleInfo(bortle).sqm` (reading a
field of `undefined` would throw; the lookup is total, see `getBortleInfo`). -/
def bortleToSqm (bortle : ℝ) : Option ℚ :=
  (getBortleInfo bortle).map (fun info => info.sqm)

/-- A numeric catalog record as consumed by the visibility scorer:
`{ra, dec, magnitude}` plus the parsed `size` field in arcminutes
(`none` when the record has no usable size). -/
structure CatalogObject where
  ra : ℝ
  dec : ℝ
  magnitude : ℝ
  sizeArcmin : Option ℝ

/-- `calculateVisibilityScore` (astronomy.js): hard 0 below the horizon,
otherwise the sum of the altitude band (0–50), the magnitude margin
(0–30) and the size bonus (0–20), rounded and clamped to `[0, 100]`. -/
def calculateVisibilityScore (obj : CatalogObject) (altitude limitingMag : ℝ) : ℤ :=
  if altitude < 0 then 0
  else
    let altScore :=
      if altitude < 15 then altitude * 1.5
      else if altitude < 30 then 22.5 + (altitude - 15) * 1.0
      else if altitude < 70 then 37.5 + (altitude - 30) * 0.3125
      else 50 - (altitude - 70) * 0.5
    let magDiff := limitingMag - obj.magnitude
    let magScore :=
      if magDiff < -2 then 0
      else if magDiff < 0 then (magDiff + 2) * 5
      else if magDiff < 3 then 10 + magDiff * 6.67
      else 30
    let sizeScore :=
      match obj.sizeArcmin with
      | some s => if 5 < s then min 20 (s / 3) else 0
      | none => 0
    min 100 (max 0 (jsRound (altScore + magScore + sizeScore)))

/-- One entry of the list built by `rankObjectsByVisibility`. -/
structure RankedObject where
  obj : CatalogObject
  currentAltitude : Option ℝ
  currentAzimuth : Option ℝ
  visibilityScore : ℤ
  isVisible : Bool
  isOptimal : Bool

/-- `altitude > c` on a possibly-`NaN` altitude (`NaN > c` is false). -/
def optGt (o : Option ℝ) (c : ℝ) : Bool :=
  match o with
  | none => false
  | some a => decide (c < a)

/-- `altitude < c` on a possibly-`NaN` altitude (`NaN < c` is false). -/
def optLt (o : Option ℝ) (c : ℝ) : Bool :=
  match o with
  | none => false
  | some a => decide (a < c)

/-- The per-object computation inside `rankObjectsByVisibility.map`:
hour-to-degree auto-detection (`ra < 24`), Alt/Az at the shared LST, the
visibility score, and the `isVisible`/`isOptimal` flags.  The scorer is
fed the raw `NaN`-free altitude when it exists; with a `NaN` altitude
every comparison is false, so the score falls through to the final
clamp of the `else` chain exactly as in IEEE arithmetic. -/
def rankOne (lstv lat limitingMag : ℝ) (obj : CatalogObject) : RankedObject :=
  let ra := if obj.ra < 24 then obj.ra * 15 else obj.ra
  let altAz := raDecToAltAz ra obj.dec lat lstv
  let score := match altAz.1 with
    | some alt => calculateVisibilityScore obj alt limitingMag
    | none => 0
  ⟨obj, altAz.1, altAz.2, score, optGt altAz.1 0,
    optGt altAz.1 30 && optLt altAz.1 70⟩

/-- Insertion step of the descending sort by `visibilityScore`
(`.sort((a, b) => b.visibilityScore - a.visibilityScore)`). -/
def insertDesc (x : RankedObject) : List RankedObject → List RankedObject
  | [] => [x]
  | y :: ys =>
    if y.visibilityScore ≤ x.visibilityScore then x :: y :: ys
    else y :: insertDesc x ys

/-- Sort a ranked list in non-increasing `visibilityScore` order. -/
def sortByScoreDesc (l : List RankedObject) : List RankedObject :=
  l.foldr insertDesc []

/-- `rankObjectsByVisibility` (astronomy.js): map, filter out everything
not strictly above the horizon, then sort by descending score. -/
def rankObjectsByVisibility (objects : List CatalogObject) (lat lon : ℝ)
    (date : JsDate) (limitingMag : ℝ) : List RankedObject :=
  let jd : ℝ := ((dateToJulian date : ℚ) : ℝ)
  let localSiderealTime := lst jd lon
  sortByScoreDesc
    ((objects.map (rankOne localSiderealTime lat limitingMag)).filter
      (fun o => o.isVisible))

end

-- ===========================================================================
-- Coordinate parsing (`parseCoordinate`)
-- ===========================================================================

/-- JavaScript whitespace for `String.prototype.trim` (the characters
appearing in the repository's inputs). -/
def isWsp (c : Char) : Bool := c = ' ' || c = '\t' || c = '\n' || c = '\r'

/-- `str.trim()`: strip leading and trailing whitespace. -/
def jsTrim (s : String) : String :=
  String.mk (((s.data.dropWhile isWsp).reverse.dropWhile isWsp).reverse)

/-- Numeric value of a digit character. -/
def digitVal (c : Char) : ℚ := (c.toNat - 48 : ℤ)

/-- Value of an integer digit run. -/
def natVal (ds : List Char) : ℚ := ds.foldl (fun acc c => acc * 10 + digitVal c) 0

/-- Value of a fractional digit run (digits after the decimal point). -/
def fracVal (ds : List Char) : ℚ := ds.foldr (fun c acc => (digitVal c + acc) / 10) 0

/-- Split a leading run of decimal digits. -/
def takeDigits : List Char → List Char × List Char
  | [] => ([], [])
  | c :: cs =>
    if c.isDigit then
      let r := takeDigits cs
      (c :: r.1, r.2)
    else ([], c :: cs)

/-- The anchored decimal test of `parseCoordinate`:
`/^([+-]?\d+\.?\d*)°?$/` followed by `parseFloat` of the capture.
Returns the exact numeric value on a match. -/
def decMatch (s : String) : Option ℚ :=
  let cs := s.data
  let sign : ℚ × List Char :=
    match cs with
    | '+' :: rest => (1, rest)
    | '-' :: rest => (-1, rest)
    | _ => (1, cs)
  let ip := takeDigits sign.2
  if ip.1.isEmpty then none
  else
    let afterDot : Option (List Char) :=
      match ip.2 with
      | '.' :: rest => some rest
      | rest => some rest
    match afterDot with
    | some rest =>
      let fp := if ip.2 = rest then ([], rest) else takeDigits rest
      let tail := fp.2
      let ok := tail = [] ∨ tail = ['°']
      if ok then some (sign.1 * (natVal ip.1 + fracVal fp.1)) else none
    | none => none

/-- Separator classes of the sexagesimal patterns. -/
def isHmsSep1 (c : Char) : Bool := c = 'h' || c = 'H' || c = ':' || c = ' '

/-- Second separator class (`[m:\s]`) of the HMS pattern. -/
def isHmsSep2 (c : Char) : Bool := c = 'm' || c = 'M' || c = ':' || c = ' '

/-- Split a leading run of separator characters. -/
def takeSeps (p : Char → Bool) : List Char → List Char × List Char
  | [] => ([], [])
  | c :: cs =>
    if p c then
      let r := takeSeps p cs
      (c :: r.1, r.2)
    else ([], c :: cs)

/-- Try the HMS pattern `(\d+)[h:\s]+(\d+)[m:\s]+(\d+\.?\d*)s?` at the
head of the character list (group values on success). -/
def hmsMatchAt (cs : List Char) : Option (ℚ × ℚ × ℚ) :=
  let g1 := takeDigits cs
  if g1.1.isEmpty then none
  else
    let s1 := takeSeps isHmsSep1 g1.2
    if s1.1.isEmpty then none
    else
      let g2 := takeDigits s1.2
      if g2.1.isEmpty then none
      else
        let s2 := takeSeps isHmsSep2 g2.2
        if s2.1.isEmpty then none
        else
          let g3 := takeDigits s2.2
          if g3.1.isEmpty then none
          else
            let fp :=
              match g3.2 with
              | '.' :: rest => takeDigits rest
              | _ => ([], g3.2)
            some (natVal g1.1, natVal g2.1, natVal g3.1 + fracVal fp.1)

/-- Unanchored search for the HMS pattern (leftmost match). -/
def hmsSearch : List Char → Option (ℚ × ℚ × ℚ)
  | [] => none
  | c :: cs =>
    match hmsMatchAt (c :: cs) with
    | some r => some r
    | none => hmsSearch cs

/-- Try the simple hour pattern `(\d+\.?\d*)h` at the head. -/
def hourMatchAt (cs : List Char) : Option ℚ :=
  let g1 := takeDigits cs
  if g1.1.isEmpty then none
  else
    let fp :=
      match g1.2 with
      | '.' :: rest => takeDigits rest
      | _ => ([], g1.2)
    match fp.2 with
    | 'h' :: _ => some (natVal g1.1 + fracVal fp.1)
    | 'H' :: _ => some (natVal g1.1 + fracVal fp.1)
    | _ => none

/-- Unanchored search for the simple hour pattern. -/
def hourSearch : List Char → Option ℚ
  | [] => none
  | c :: cs =>
    match hourMatchAt (c :: cs) with
    | some r => some r
    | none => hourSearch cs

/-- First separator class (`[°:\s]`) of the DMS pattern. -/
def isDmsSep1 (c : Char) : Bool := c = '°' || c = ':' || c = ' '

/-- Second separator class of the DMS pattern. -/
def isDmsSep2 (c : Char) : Bool := c = '\'' || c = ':' || c = ' '

/-- Try the DMS pattern `([+-]?\d+)[°:\s]+(\d+)['\:\s]+(\d+\.?\d*)["s]?`
at the head (sign applied to the whole magnitude). -/
def dmsMatchAt (cs : List Char) : Option ℚ :=
  let sign : ℚ × List Char :=
    match cs with
    | '+' :: rest => (1, rest)
    | '-' :: rest => (-1, rest)
    | _ => (1, cs)
  let g1 := takeDigits sign.2
  if g1.1.isEmpty then none
  else
    let s1 := takeSeps isDmsSep1 g1.2
    if s1.1.isEmpty then none
    else
      let g2 := takeDigits s1.2
      if g2.1.isEmpty then none
      else
        let s2 := takeSeps isDmsSep2 g2.2
        if s2.1.isEmpty then none
        else
          let g3 := takeDigits s2.2
          if g3.1.isEmpty then none
          else
            let fp :=
              match g3.2 with
              | '.' :: rest => takeDigits rest
              | _ => ([], g3.2)
            some (sign.1 * (natVal g1.1 + natVal g2.1 / 60 +
              (natVal g3.1 + fracVal fp.1) / 3600))

/-- Unanchored search for the DMS pattern. -/
def dmsSearch : List Char → Option ℚ
  | [] => none
  | c :: cs =>
    match dmsMatchAt (c :: cs) with
    | some r => some r
    | none => dmsSearch cs

/-- `parseCoordinate` (astronomy.js): decimal degrees first (both types,
returned unchanged), then HMS and plain hours (`× 15`) for `'ra'`, then
DMS for `'dec'`; `null` when nothing matches. -/
def parseCoordinate (str ty : String) : Option ℚ :=
  let s := jsTrim str
  match decMatch s with
  | some v => some v
  | none =>
    if ty = "ra" then
      match hmsSearch s.data with
      | some (h, m, sec) => some ((h + m / 60 + sec / 3600) * 15)
      | none =>
        match hourSearch s.data with
        | some h => some (h * 15)
        | none => none
    else if ty = "dec" then dmsSearch s.data
    else none

-- ===========================================================================
-- Helper lemmas
-- ===========================================================================

theorem floor_intCast_div (a b : ℤ) (hb : 0 < b) : ⌊(a : ℚ) / (b : ℚ)⌋ = a / b := by
  have h1 : (b.toNat : ℤ) = b := Int.toNat_of_nonneg hb.le
  have h := Rat.floor_intCast_div_natCast a b.toNat
  rw [h1] at h
  rwa [show ((b.toNat : ℕ) : ℚ) = (b : ℚ) by exact_mod_cast congrArg Int.cast h1] at h

theorem floor_fract_zero (f : ℚ) (h0 : 0 ≤ f) (h1 : f < 1) : ⌊f⌋ = 0 :=
  Int.floor_eq_zero_iff.mpr ⟨h0, h1⟩

theorem floor_intCast_add_fract (n : ℤ) (f : ℚ) (h0 : 0 ≤ f) (h1 : f < 1) :
    ⌊(n : ℚ) + f⌋ = n := by
  rw [add_comm, Int.floor_add_int, floor_fract_zero f h0 h1, zero_add]

theorem mem_insertDesc {x a : RankedObject} {l : List RankedObject}
    (h : a ∈ insertDesc x l) : a = x ∨ a ∈ l := by
  induction l with
  | nil => simpa [insertDesc] using h
  | cons y ys ih =>
    by_cases hc : y.visibilityScore ≤ x.visibilityScore
    · simp only [insertDesc, if_pos hc, List.mem_cons] at h
      rcases h with h | h | h
      · exact Or.inl h
      · exact Or.inr (List.mem_cons.mpr (Or.inl h))
      · exact Or.inr (List.mem_cons_of_mem _ h)
    · simp only [insertDesc, if_neg hc, List.mem_cons] at h
      rcases h with h | h
      · exact Or.inr (by simp [h])
      · rcases ih h with h | h
        · exact Or.inl h
        · exact Or.inr (List.mem_cons_of_mem _ h)

theorem mem_sortByScoreDesc {a : RankedObject} {l : List RankedObject}
    (h : a ∈ sortByScoreDesc l) : a ∈ l := by
  induction l with
  | nil => simp [sortByScoreDesc] at h
  | cons y ys ih =>
    simp only [sortByScoreDesc, List.foldr_cons] at h
    rcases mem_insertDesc h with h | h
    · simp [h]
    · exact List.mem_cons_of_mem _ (ih h)

theorem sorted_insertDesc (x : RankedObject) (l : List RankedObject)
    (h : List.Sorted (fun a b => b.visibilityScore ≤ a.visibilityScore) l) :
    List.Sorted (fun a b => b.visibilityScore ≤ a.visibilityScore) (insertDesc x l) := by
  induction l with
  | nil => simp [insertDesc]
  | cons y ys ih =>
    rw [List.sorted_cons] at h
    by_cases hc : y.visibilityScore ≤ x.visibilityScore
    · rw [insertDesc, if_pos hc, List.sorted_cons]
      refine ⟨?_, List.sorted_cons.mpr h⟩
      intro b hb
      rcases List.mem_cons.mp hb with hb | hb
      · simpa [hb] using hc
      · exact le_trans (h.1 b hb) hc
    · rw [insertDesc, if_neg hc, List.sorted_cons]
      refine ⟨?_, ih h.2⟩
      intro b hb
      rcases mem_insertDesc hb with hb | hb
      · subst hb; exact (not_le.mp hc).le
      · exact h.1 b hb

theorem sorted_sortByScoreDesc (l : List RankedObject) :
    List.Sorted (fun a b => b.visibilityScore ≤ a.visibilityScore)
      (sortByScoreDesc l) := by
  induction l with
  | nil => simp [sortByScoreDesc]
  | cons y ys ih => exact sorted_insertDesc y _ ih


-- ===========================================================================
-- Julian Date round trip (C4)
-- ===========================================================================

-- Floor-to-integer-division helper lemmas for the Meeus formulas
theorem floor_q_div_4 (a : ℤ) : ⌊(a : ℚ) / 4⌋ = a / 4 := by
  rw [show (4 : ℚ) = ((4 : ℤ) : ℚ) by norm_num]
  exact floor_intCast_div a 4 (by norm_num)

theorem floor_q_div_100 (a : ℤ) : ⌊(a : ℚ) / 100⌋ = a / 100 := by
  rw [show (100 : ℚ) = ((100 : ℤ) : ℚ) by norm_num]
  exact floor_intCast_div a 100 (by norm_num)

theorem floor_mul_365_25 (j : ℤ) : ⌊(365.25 : ℚ) * (j : ℚ)⌋ = (1461 * j) / 4 := by
  rw [show (365.25 : ℚ) * (j : ℚ) = ((1461 * j : ℤ) : ℚ) / ((4 : ℤ) : ℚ) by
    push_cast; ring_nf]
  exact floor_intCast_div _ 4 (by norm_num)

theorem floor_mul_365_25_add (j : ℤ) :
    ⌊(365.25 : ℚ) * ((j : ℚ) + 4716)⌋ = (1461 * (j + 4716)) / 4 := by
  rw [show ((j : ℚ) + 4716) = ((j + 4716 : ℤ) : ℚ) by push_cast; ring]
  exact floor_mul_365_25 (j + 4716)

theorem floor_mul_30_6001 (j : ℤ) :
    ⌊(30.6001 : ℚ) * ((j : ℚ) + 1)⌋ = (306001 * (j + 1)) / 10000 := by
  rw [show (30.6001 : ℚ) * ((j : ℚ) + 1) = ((306001 * (j + 1) : ℤ) : ℚ) / ((10000 : ℤ) : ℚ) by
    push_cast; ring_nf]
  exact floor_intCast_div _ 10000 (by norm_num)

theorem floor_mul_30_6001_same (j : ℤ) :
    ⌊(30.6001 : ℚ) * (j : ℚ)⌋ = (306001 * j) / 10000 := by
  rw [show (30.6001 : ℚ) * (j : ℚ) = ((306001 * j : ℤ) : ℚ) / ((10000 : ℤ) : ℚ) by
    push_cast; ring_nf]
  exact floor_intCast_div _ 10000 (by norm_num)

theorem floor_alpha_div (z : ℤ) :
    ⌊((z : ℚ) - 1867216.25) / 36524.25⌋ = (4 * z - 7468865) / 146097 := by
  rw [show ((z : ℚ) - 1867216.25) / 36524.25 = ((4 * z - 7468865 : ℤ) : ℚ) / ((146097 : ℤ) : ℚ) by
    push_cast; ring_nf]
  exact floor_intCast_div _ 146097 (by norm_num)

theorem floor_c_div (b : ℤ) :
    ⌊((b : ℚ) - 122.1) / 365.25⌋ = (20 * b - 2442) / 7305 := by
  rw [show ((b : ℚ) - 122.1) / 365.25 = ((20 * b - 2442 : ℤ) : ℚ) / ((7305 : ℤ) : ℚ) by
    push_cast; ring_nf]
  exact floor_intCast_div _ 7305 (by norm_num)

theorem dateToJulian_decomp (t : JsDate) :
    dateToJulian t = ((jdnInt t.year t.month t.day : ℤ) : ℚ) +
      ((timeMs t : ℤ) : ℚ) / 86400000 - 1/2 := by
  obtain ⟨y, m, d, hh, mi, ss, ms⟩ := t
  rw [dateToJulian, jdnInt, timeMs]
  simp only
  by_cases hm : m ≤ 2
  · simp only [if_pos hm]
    rw [floor_mul_365_25_add (y - 1), floor_mul_30_6001 (m + 12), floor_q_div_100 (y - 1),
      floor_q_div_4 ((y - 1) / 100)]
    push_cast
    ring
  · simp only [if_neg hm]
    rw [floor_mul_365_25_add y, floor_mul_30_6001 m, floor_q_div_100 y,
      floor_q_div_4 (y / 100)]
    push_cast
    ring

theorem time_floors (u : ℤ) (h0 : 0 ≤ u) (h1 : u < 86400000) :
    hoursFloor ((u : ℚ) / 86400000) = u / 3600000 ∧
    minsFloor ((u : ℚ) / 86400000) = u % 3600000 / 60000 ∧
    secsFloor ((u : ℚ) / 86400000) = u % 60000 / 1000 := by
  have e24 : ((u : ℚ) / 86400000) * 24 = (u : ℚ) / 3600000 := by ring
  have hfh : ⌊((u : ℚ) / 86400000) * 24⌋ = u / 3600000 := by
    rw [e24, show (3600000 : ℚ) = ((3600000 : ℤ) : ℚ) by norm_num]
    exact floor_intCast_div u 3600000 (by norm_num)
  have emod1 : (u : ℚ) / 3600000 - ((u / 3600000 : ℤ) : ℚ) = ((u % 3600000 : ℤ) : ℚ) / 3600000 := by
    rw [Int.emod_def]
    push_cast
    ring
  have emins : (((u : ℚ) / 86400000) * 24 - ((⌊((u : ℚ) / 86400000) * 24⌋ : ℤ) : ℚ)) * 60
      = ((u % 3600000 : ℤ) : ℚ) / 60000 := by
    rw [hfh, e24, emod1]
    ring
  have hfm : ⌊(((u : ℚ) / 86400000) * 24 - ((⌊((u : ℚ) / 86400000) * 24⌋ : ℤ) : ℚ)) * 60⌋
      = u % 3600000 / 60000 := by
    rw [emins, show (60000 : ℚ) = ((60000 : ℤ) : ℚ) by norm_num]
    exact floor_intCast_div _ 60000 (by norm_num)
  have emod2 : ((u % 3600000 : ℤ) : ℚ) / 60000 - ((u % 3600000 / 60000 : ℤ) : ℚ)
      = ((u % 3600000 % 60000 : ℤ) : ℚ) / 60000 := by
    rw [Int.emod_def (u % 3600000) 60000]
    push_cast
    ring
  have hmod : u % 3600000 % 60000 = u % 60000 := by omega
  have esecs : ((((u : ℚ) / 86400000) * 24 - ((⌊((u : ℚ) / 86400000) * 24⌋ : ℤ) : ℚ)) * 60 -
      ((⌊(((u : ℚ) / 86400000) * 24 - ((⌊((u : ℚ) / 86400000) * 24⌋ : ℤ) : ℚ)) * 60⌋ : ℤ) : ℚ)) * 60
      = ((u % 60000 : ℤ) : ℚ) / 1000 := by
    rw [hfm, emins, emod2, hmod]
    ring
  refine ⟨hfh, hfm, ?_⟩
  rw [secsFloor, esecs, show (1000 : ℚ) = ((1000 : ℤ) : ℚ) by norm_num]
  exact floor_intCast_div _ 1000 (by norm_num)

theorem julianToDate_decomp (z : ℤ) (f : ℚ) (hf0 : 0 ≤ f) (hf1 : f < 1)
    (hz : 2299161 ≤ z) :
    julianToDate ((z : ℚ) + f - 1/2) =
      ⟨(meeusCivil z).1, (meeusCivil z).2.1, (meeusCivil z).2.2,
        hoursFloor f, minsFloor f, secsFloor f, 0⟩ := by
  rw [julianToDate]
  have hzf : (z : ℚ) + f - 1/2 + 0.5 = (z : ℚ) + f := by norm_num
  have hfl : ⌊(z : ℚ) + f - 1/2 + 0.5⌋ = z := by
    rw [hzf]; exact floor_intCast_add_fract z f hf0 hf1
  rw [hfl]
  have hfrac : (z : ℚ) + f - 1/2 + 0.5 - (z : ℚ) = f := by norm_num
  rw [hfrac]
  rw [if_pos hz]
  rw [floor_alpha_div z, floor_q_div_4 ((4 * z - 7468865) / 146097)]
  set a := z + 1 + (4 * z - 7468865) / 146097 - (4 * z - 7468865) / 146097 / 4 with ha
  rw [floor_c_div (a + 1524)]
  set c := (20 * (a + 1524) - 2442) / 7305 with hc
  rw [floor_mul_365_25 c]
  set dd := 1461 * c / 4 with hdd
  rw [show ((a + 1524 : ℤ) : ℚ) - ((dd : ℤ) : ℚ) = ((a + 1524 - dd : ℤ) : ℚ) by push_cast; ring]
  rw [show ((a + 1524 - dd : ℤ) : ℚ) / 30.6001 = ((10000 * (a + 1524 - dd) : ℤ) : ℚ) / ((306001 : ℤ) : ℚ) by
    push_cast; ring_nf]
  rw [floor_intCast_div _ 306001 (by norm_num)]
  set e := 10000 * (a + 1524 - dd) / 306001 with he
  rw [floor_mul_30_6001_same e]
  set mt2 := 306001 * e / 10000 with hmt2
  rw [show ((a + 1524 - dd : ℤ) : ℚ) - ((mt2 : ℤ) : ℚ) + f
      = ((a + 1524 - dd - mt2 : ℤ) : ℚ) + f by push_cast; ring]
  rw [floor_intCast_add_fract (a + 1524 - dd - mt2) f hf0 hf1]
  rw [show ((a + 1524 - dd - mt2 : ℤ) : ℚ) + f - ((a + 1524 - dd - mt2 : ℤ) : ℚ) = f by ring]
  rw [meeusCivil]
  simp only
  rfl

theorem meeus_alpha_eq (jy off z : ℤ) (hjy : 1582 ≤ jy) (ho1 : 123 ≤ off) (ho2 : off ≤ 488)
    (hco : off ≤ 487 ∨ (jy % 4 = 3 ∧ (jy % 100 ≤ 98 ∨ jy % 400 = 399)))
    (hz : z = (1461*(jy + 4716))/4 + off + (2 - jy/100 + (jy/100)/4) - 1524) :
    (4*z - 7468865)/146097 = jy/100 - 4 := by
  have h4 : (1461*(jy + 4716)) % 4 = jy % 4 := by omega
  rcases hco with h | ⟨hA, hB | hB⟩ <;> omega

theorem meeus_c_eq (k off b : ℤ) (ho1 : 123 ≤ off) (ho2 : off ≤ 488)
    (hco : off ≤ 487 ∨ k % 4 = 3) (hb : b = (1461*k)/4 + off) :
    (20*b - 2442)/7305 = k := by
  rcases hco with h | h <;> omega

set_option maxHeartbeats 1000000 in
theorem meeus_civil_parts (jy jm mt d z : ℤ)
    (hjy : 1582 ≤ jy) (hjm1 : 3 ≤ jm) (hjm2 : jm ≤ 14)
    (hd1 : 1 ≤ d) (hd31 : d ≤ 31)
    (hmt1 : 10000*mt ≤ 306001*(jm+1)) (hmt2 : 306001*(jm+1) < 10000*mt + 10000)
    (hdup : 10000*(mt + d) < 306001*(jm+2))
    (hoff488 : mt + d ≤ 488)
    (hleap : mt + d ≤ 487 ∨ (jy % 4 = 3 ∧ (jy % 100 ≤ 98 ∨ jy % 400 = 399)))
    (hz : z = (1461*(jy + 4716))/4 + mt + d + (2 - jy/100 + (jy/100)/4) - 1524) :
    meeusCivil z = (if 12 < jm then jy + 1 else jy, if 12 < jm then jm - 12 else jm, d) := by
  simp only [meeusCivil]
  have hoff1 : 123 ≤ mt + d := by omega
  have halpha := meeus_alpha_eq jy (mt + d) z hjy hoff1 hoff488 hleap (by omega)
  have hi : ((4*z - 7468865)/146097)/4 = (jy/100)/4 - 1 := by omega
  have hb : z + 1 + ((4*z - 7468865)/146097) - ((4*z - 7468865)/146097)/4 + 1524
      = (1461*(jy + 4716))/4 + (mt + d) := by omega
  have hco2 : mt + d ≤ 487 ∨ (jy + 4716) % 4 = 3 := by omega
  have hc := meeus_c_eq (jy + 4716) (mt + d)
      (z + 1 + ((4*z - 7468865)/146097) - ((4*z - 7468865)/146097)/4 + 1524)
      hoff1 hoff488 hco2 hb
  have hdd : (1461*((20*(z + 1 + ((4*z - 7468865)/146097) - ((4*z - 7468865)/146097)/4 + 1524) - 2442)/7305))/4
      = (1461*(jy + 4716))/4 := by omega
  have he0 : (10000*(mt + d))/306001 = jm + 1 := by omega
  have he : (10000*((z + 1 + ((4*z - 7468865)/146097) - ((4*z - 7468865)/146097)/4 + 1524)
      - (1461*((20*(z + 1 + ((4*z - 7468865)/146097) - ((4*z - 7468865)/146097)/4 + 1524) - 2442)/7305))/4))/306001
      = jm + 1 := by omega
  have hmt3 : (306001*(jm+1))/10000 = mt := by omega
  simp only [Prod.mk.injEq]
  refine ⟨?_, ?_, ?_⟩
  · split_ifs <;> omega
  · split_ifs <;> omega
  · omega

set_option maxHeartbeats 2000000 in
theorem meeusCivil_jdnInt (y m d : ℤ)
    (hm1 : 1 ≤ m) (hm2 : m ≤ 12) (hd1 : 1 ≤ d) (hd2 : d ≤ daysInMonth y m)
    (hcut : 1582 < y ∨ (y = 1582 ∧ (10 < m ∨ (m = 10 ∧ 15 ≤ d)))) :
    2299161 ≤ jdnInt y m d ∧ meeusCivil (jdnInt y m d) = (y, m, d) := by
  interval_cases m
  · -- m = 1
    simp only [daysInMonth] at hd2
    norm_num at hd2
    have hz : jdnInt y 1 d = (1461*((y - 1) + 4716))/4 + 428 + d + (2 - (y - 1)/100 + ((y - 1)/100)/4) - 1524 := by
      simp only [jdnInt]; norm_num
    have hy2 : 1582 ≤ (y - 1) := by omega
    have hmod4 : (1461*((y - 1) + 4716)) % 4 = (y - 1) % 4 := by omega
    have hleap : (428 : ℤ) + d ≤ 487 ∨ ((y - 1) % 4 = 3 ∧ ((y - 1) % 100 ≤ 98 ∨ (y - 1) % 400 = 399)) :=
      Or.inl (by omega)
    have hparts := meeus_civil_parts (y - 1) 13 428 d (jdnInt y 1 d) hy2
      (by norm_num) (by norm_num) hd1 (by omega)
      (by norm_num) (by norm_num) (by omega) (by omega) hleap hz
    refine ⟨by omega, ?_⟩
    rw [hparts]
    norm_num
  · -- m = 2
    simp only [daysInMonth] at hd2
    norm_num at hd2
    have hz : jdnInt y 2 d = (1461*((y - 1) + 4716))/4 + 459 + d + (2 - (y - 1)/100 + ((y - 1)/100)/4) - 1524 := by
      simp only [jdnInt]; norm_num
    have hy2 : 1582 ≤ (y - 1) := by omega
    have hmod4 : (1461*((y - 1) + 4716)) % 4 = (y - 1) % 4 := by omega
    have hdle : d ≤ 29 := by
      by_cases hl : isLeap y = true
      · rw [hl] at hd2; norm_num at hd2; omega
      · rw [Bool.not_eq_true] at hl; rw [hl] at hd2; norm_num at hd2; omega
    have hleap : (459 : ℤ) + d ≤ 487 ∨
        ((y-1) % 4 = 3 ∧ ((y-1) % 100 ≤ 98 ∨ (y-1) % 400 = 399)) := by
      by_cases hl : isLeap y = true
      · have hlp : (y % 4 = 0 ∧ ¬ y % 100 = 0) ∨ y % 400 = 0 := by
          have h2 := hl
          simp only [isLeap, Bool.or_eq_true, Bool.and_eq_true, beq_iff_eq, bne_iff_ne, ne_eq,
            decide_eq_true_eq] at h2
          exact h2
        by_cases hd28 : d ≤ 28
        · exact Or.inl (by omega)
        · rcases hlp with ⟨h4, h100⟩ | h400
          · exact Or.inr ⟨by omega, Or.inl (by omega)⟩
          · exact Or.inr ⟨by omega, Or.inr (by omega)⟩
      · rw [Bool.not_eq_true] at hl; rw [hl] at hd2; norm_num at hd2
        exact Or.inl (by omega)
    have hparts := meeus_civil_parts (y - 1) 14 459 d (jdnInt y 2 d) hy2
      (by norm_num) (by norm_num) hd1 (by omega)
      (by norm_num) (by norm_num) (by omega) (by omega) hleap hz
    refine ⟨by omega, ?_⟩
    rw [hparts]
    norm_num
  · -- m = 3
    simp only [daysInMonth] at hd2
    norm_num at hd2
    have hz : jdnInt y 3 d = (1461*(y + 4716))/4 + 122 + d + (2 - y/100 + (y/100)/4) - 1524 := by
      simp only [jdnInt]; norm_num
    have hy2 : 1582 ≤ y := by omega
    have hmod4 : (1461*(y + 4716)) % 4 = y % 4 := by omega
    have hleap : (122 : ℤ) + d ≤ 487 ∨ (y % 4 = 3 ∧ (y % 100 ≤ 98 ∨ y % 400 = 399)) :=
      Or.inl (by omega)
    have hparts := meeus_civil_parts y 3 122 d (jdnInt y 3 d) hy2
      (by norm_num) (by norm_num) hd1 (by omega)
      (by norm_num) (by norm_num) (by omega) (by omega) hleap hz
    refine ⟨by omega, ?_⟩
    rw [hparts]
    norm_num
  · -- m = 4
    simp only [daysInMonth] at hd2
    norm_num at hd2
    have hz : jdnInt y 4 d = (1461*(y + 4716))/4 + 153 + d + (2 - y/100 + (y/100)/4) - 1524 := by
      simp only [jdnInt]; norm_num
    have hy2 : 1582 ≤ y := by omega
    have hmod4 : (1461*(y + 4716)) % 4 = y % 4 := by omega
    have hleap : (153 : ℤ) + d ≤ 487 ∨ (y % 4 = 3 ∧ (y % 100 ≤ 98 ∨ y % 400 = 399)) :=
      Or.inl (by omega)
    have hparts := meeus_civil_parts y 4 153 d (jdnInt y 4 d) hy2
      (by norm_num) (by norm_num) hd1 (by omega)
      (by norm_num) (by norm_num) (by omega) (by omega) hleap hz
    refine ⟨by omega, ?_⟩
    rw [hparts]
    norm_num
  · -- m = 5
    simp only [daysInMonth] at hd2
    norm_num at hd2
    have hz : jdnInt y 5 d = (1461*(y + 4716))/4 + 183 + d + (2 - y/100 + (y/100)/4) - 1524 := by
      simp only [jdnInt]; norm_num
    have hy2 : 1582 ≤ y := by omega
    have hmod4 : (1461*(y + 4716)) % 4 = y % 4 := by omega
    have hleap : (183 : ℤ) + d ≤ 487 ∨ (y % 4 = 3 ∧ (y % 100 ≤ 98 ∨ y % 400 = 399)) :=
      Or.inl (by omega)
    have hparts := meeus_civil_parts y 5 183 d (jdnInt y 5 d) hy2
      (by norm_num) (by norm_num) hd1 (by omega)
      (by norm_num) (by norm_num) (by omega) (by omega) hleap hz
    refine ⟨by omega, ?_⟩
    rw [hparts]
    norm_num
  · -- m = 6
    simp only [daysInMonth] at hd2
    norm_num at hd2
    have hz : jdnInt y 6 d = (1461*(y + 4716))/4 + 214 + d + (2 - y/100 + (y/100)/4) - 1524 := by
      simp only [jdnInt]; norm_num
    have hy2 : 1582 ≤ y := by omega
    have hmod4 : (1461*(y + 4716)) % 4 = y % 4 := by omega
    have hleap : (214 : ℤ) + d ≤ 487 ∨ (y % 4 = 3 ∧ (y % 100 ≤ 98 ∨ y % 400 = 399)) :=
      Or.inl (by omega)
    have hparts := meeus_civil_parts y 6 214 d (jdnInt y 6 d) hy2
      (by norm_num) (by norm_num) hd1 (by omega)
      (by norm_num) (by norm_num) (by omega) (by omega) hleap hz
    refine ⟨by omega, ?_⟩
    rw [hparts]
    norm_num
  · -- m = 7
    simp only [daysInMonth] at hd2
    norm_num at hd2
    have hz : jdnInt y 7 d = (1461*(y + 4716))/4 + 244 + d + (2 - y/100 + (y/100)/4) - 1524 := by
      simp only [jdnInt]; norm_num
    have hy2 : 1582 ≤ y := by omega
    have hmod4 : (1461*(y + 4716)) % 4 = y % 4 := by omega
    have hleap : (244 : ℤ) + d ≤ 487 ∨ (y % 4 = 3 ∧ (y % 100 ≤ 98 ∨ y % 400 = 399)) :=
      Or.inl (by omega)
    have hparts := meeus_civil_parts y 7 244 d (jdnInt y 7 d) hy2
      (by norm_num) (by norm_num) hd1 (by omega)
      (by norm_num) (by norm_num) (by omega) (by omega) hleap hz
    refine ⟨by omega, ?_⟩
    rw [hparts]
    norm_num
  · -- m = 8
    simp only [daysInMonth] at hd2
    norm_num at hd2
    have hz : jdnInt y 8 d = (1461*(y + 4716))/4 + 275 + d + (2 - y/100 + (y/100)/4) - 1524 := by
      simp only [jdnInt]; norm_num
    have hy2 : 1582 ≤ y := by omega
    have hmod4 : (1461*(y + 4716)) % 4 = y % 4 := by omega
    have hleap : (275 : ℤ) + d ≤ 487 ∨ (y % 4 = 3 ∧ (y % 100 ≤ 98 ∨ y % 400 = 399)) :=
      Or.inl (by omega)
    have hparts := meeus_civil_parts y 8 275 d (jdnInt y 8 d) hy2
      (by norm_num) (by norm_num) hd1 (by omega)
      (by norm_num) (by norm_num) (by omega) (by omega) hleap hz
    refine ⟨by omega, ?_⟩
    rw [hparts]
    norm_num
  · -- m = 9
    simp only [daysInMonth] at hd2
    norm_num at hd2
    have hz : jdnInt y 9 d = (1461*(y + 4716))/4 + 306 + d + (2 - y/100 + (y/100)/4) - 1524 := by
      simp only [jdnInt]; norm_num
    have hy2 : 1582 ≤ y := by omega
    have hmod4 : (1461*(y + 4716)) % 4 = y % 4 := by omega
    have hleap : (306 : ℤ) + d ≤ 487 ∨ (y % 4 = 3 ∧ (y % 100 ≤ 98 ∨ y % 400 = 399)) :=
      Or.inl (by omega)
    have hparts := meeus_civil_parts y 9 306 d (jdnInt y 9 d) hy2
      (by norm_num) (by norm_num) hd1 (by omega)
      (by norm_num) (by norm_num) (by omega) (by omega) hleap hz
    refine ⟨by omega, ?_⟩
    rw [hparts]
    norm_num
  · -- m = 10
    simp only [daysInMonth] at hd2
    norm_num at hd2
    have hz : jdnInt y 10 d = (1461*(y + 4716))/4 + 336 + d + (2 - y/100 + (y/100)/4) - 1524 := by
      simp only [jdnInt]; norm_num
    have hy2 : 1582 ≤ y := by omega
    have hmod4 : (1461*(y + 4716)) % 4 = y % 4 := by omega
    have hleap : (336 : ℤ) + d ≤ 487 ∨ (y % 4 = 3 ∧ (y % 100 ≤ 98 ∨ y % 400 = 399)) :=
      Or.inl (by omega)
    have hparts := meeus_civil_parts y 10 336 d (jdnInt y 10 d) hy2
      (by norm_num) (by norm_num) hd1 (by omega)
      (by norm_num) (by norm_num) (by omega) (by omega) hleap hz
    refine ⟨by omega, ?_⟩
    rw [hparts]
    norm_num
  · -- m = 11
    simp only [daysInMonth] at hd2
    norm_num at hd2
    have hz : jdnInt y 11 d = (1461*(y + 4716))/4 + 367 + d + (2 - y/100 + (y/100)/4) - 1524 := by
      simp only [jdnInt]; norm_num
    have hy2 : 1582 ≤ y := by omega
    have hmod4 : (1461*(y + 4716)) % 4 = y % 4 := by omega
    have hleap : (367 : ℤ) + d ≤ 487 ∨ (y % 4 = 3 ∧ (y % 100 ≤ 98 ∨ y % 400 = 399)) :=
      Or.inl (by omega)
    have hparts := meeus_civil_parts y 11 367 d (jdnInt y 11 d) hy2
      (by norm_num) (by norm_num) hd1 (by omega)
      (by norm_num) (by norm_num) (by omega) (by omega) hleap hz
    refine ⟨by omega, ?_⟩
    rw [hparts]
    norm_num
  · -- m = 12
    simp only [daysInMonth] at hd2
    norm_num at hd2
    have hz : jdnInt y 12 d = (1461*(y + 4716))/4 + 397 + d + (2 - y/100 + (y/100)/4) - 1524 := by
      simp only [jdnInt]; norm_num
    have hy2 : 1582 ≤ y := by omega
    have hmod4 : (1461*(y + 4716)) % 4 = y % 4 := by omega
    have hleap : (397 : ℤ) + d ≤ 487 ∨ (y % 4 = 3 ∧ (y % 100 ≤ 98 ∨ y % 400 = 399)) :=
      Or.inl (by omega)
    have hparts := meeus_civil_parts y 12 397 d (jdnInt y 12 d) hy2
      (by norm_num) (by norm_num) hd1 (by omega)
      (by norm_num) (by norm_num) (by omega) (by omega) hleap hz
    refine ⟨by omega, ?_⟩
    rw [hparts]
    norm_num

/-- C4 (amended): for every valid civil instant on or after the Gregorian
reform date 1582-10-15, `julianToDate (dateToJulian I)` equals `I` to
within 1 second (the source drops sub-second precision).  Before the
reform the round trip fails, see the counterexample theorem. -/
theorem julian_round_trip (t : JsDate) (hv : ValidDate t) (he : GregorianEra t) :
    |epochMs (julianToDate (dateToJulian t)) - epochMs t| ≤ 999 := by
  obtain ⟨y, m, d, hh, mi, ss, ms⟩ := t
  obtain ⟨h1b, h2b, h3b, h4b, h5b, h6b, h7b, h8b, h9b, h10b, h11b, h12b⟩ := hv
  have h1 : 1 ≤ m := h1b
  have h2 : m ≤ 12 := h2b
  have h3 : 1 ≤ d := h3b
  have h4 : d ≤ daysInMonth y m := h4b
  have h5 : 0 ≤ hh := h5b
  have h6 : hh ≤ 23 := h6b
  have h7 : 0 ≤ mi := h7b
  have h8 : mi ≤ 59 := h8b
  have h9 : 0 ≤ ss := h9b
  have h10 : ss ≤ 59 := h10b
  have h11 : 0 ≤ ms := h11b
  have h12 : ms ≤ 999 := h12b
  clear h1b h2b h3b h4b h5b h6b h7b h8b h9b h10b h11b h12b
  have hu : timeMs ⟨y, m, d, hh, mi, ss, ms⟩ = 3600000 * hh + 60000 * mi + 1000 * ss + ms := rfl
  have hu0 : 0 ≤ timeMs ⟨y, m, d, hh, mi, ss, ms⟩ := by rw [hu]; omega
  have hu1 : timeMs ⟨y, m, d, hh, mi, ss, ms⟩ < 86400000 := by rw [hu]; omega
  have hf0 : 0 ≤ ((timeMs ⟨y, m, d, hh, mi, ss, ms⟩ : ℤ) : ℚ) / 86400000 := by positivity
  have hf1 : ((timeMs ⟨y, m, d, hh, mi, ss, ms⟩ : ℤ) : ℚ) / 86400000 < 1 := by
    rw [div_lt_one (by norm_num)]
    exact_mod_cast hu1
  have hera : 1582 < y ∨ (y = 1582 ∧ (10 < m ∨ (m = 10 ∧ 15 ≤ d))) := he
  have hjz := meeusCivil_jdnInt y m d h1 h2 h3 h4 hera
  rw [dateToJulian_decomp ⟨y, m, d, hh, mi, ss, ms⟩]
  rw [julianToDate_decomp (jdnInt y m d) _ hf0 hf1 hjz.1, hjz.2]
  obtain ⟨ht1, ht2, ht3⟩ := time_floors (timeMs ⟨y, m, d, hh, mi, ss, ms⟩) hu0 hu1
  rw [ht1, ht2, ht3]
  simp only [epochMs]
  rw [hu]
  have hdiv1 : (3600000 * hh + 60000 * mi + 1000 * ss + ms) / 3600000 = hh := by omega
  have hdiv2 : (3600000 * hh + 60000 * mi + 1000 * ss + ms) % 3600000 / 60000 = mi := by omega
  have hdiv3 : (3600000 * hh + 60000 * mi + 1000 * ss + ms) % 60000 / 1000 = ss := by omega
  rw [hdiv1, hdiv2, hdiv3]
  rw [abs_le]
  constructor <;> omega

/-- Witness for C4 at 2024-06-15T13:45:30.250Z. -/
theorem julian_round_trip_witness :
    ValidDate ⟨2024, 6, 15, 13, 45, 30, 250⟩ ∧
      GregorianEra ⟨2024, 6, 15, 13, 45, 30, 250⟩ ∧
      |epochMs (julianToDate (dateToJulian ⟨2024, 6, 15, 13, 45, 30, 250⟩)) -
        epochMs ⟨2024, 6, 15, 13, 45, 30, 250⟩| ≤ 999 := by
  have hva : ValidDate ⟨2024, 6, 15, 13, 45, 30, 250⟩ := by
    norm_num [ValidDate, daysInMonth, isLeap]
  have hga : GregorianEra ⟨2024, 6, 15, 13, 45, 30, 250⟩ := by
    norm_num [GregorianEra]
  exact ⟨hva, hga, julian_round_trip ⟨2024, 6, 15, 13, 45, 30, 250⟩ hva hga⟩

/-- C4 counterexample: the claim fails as stated over all valid instants,
because `julianToDate` applies the Gregorian correction only from JD
2299161 (1582-10-15) while `dateToJulian` always applies it: the valid
instant 1500-01-01T00:00:00Z round-trips to 1499-12-23, nine days off. -/
theorem julian_round_trip_pre_gregorian_fails :
    ValidDate ⟨1500, 1, 1, 0, 0, 0, 0⟩ ∧
      julianToDate (dateToJulian ⟨1500, 1, 1, 0, 0, 0, 0⟩) = ⟨1499, 12, 23, 0, 0, 0, 0⟩ ∧
      ¬(|epochMs (julianToDate (dateToJulian ⟨1500, 1, 1, 0, 0, 0, 0⟩)) -
          epochMs ⟨1500, 1, 1, 0, 0, 0, 0⟩| ≤ 999) := by
  have h : julianToDate (dateToJulian ⟨1500, 1, 1, 0, 0, 0, 0⟩) = ⟨1499, 12, 23, 0, 0, 0, 0⟩ := by
    norm_num [julianToDate, dateToJulian]
  refine ⟨by norm_num [ValidDate, daysInMonth, isLeap], h, ?_⟩
  rw [h]
  decide

-- ===========================================================================
-- Claim theorems: scoring, Bortle, parsing, domain exclusions, ranking
-- ===========================================================================

/-- C7: `calculateVisibilityScore` returns 0 whenever the altitude is
below 0°, always returns an integer in `[0, 100]`, and in particular
`calculateVisibilityScore {magnitude: 5.8} (-1) 5.8 = 0`. -/
theorem calculateVisibilityScore_spec :
    (∀ (obj : CatalogObject) (altitude limitingMag : ℝ), altitude < 0 →
      calculateVisibilityScore obj altitude limitingMag = 0) ∧
    (∀ (obj : CatalogObject) (altitude limitingMag : ℝ),
      0 ≤ calculateVisibilityScore obj altitude limitingMag ∧
        calculateVisibilityScore obj altitude limitingMag ≤ 100) ∧
    calculateVisibilityScore ⟨0, 0, 5.8, none⟩ (-1) 5.8 = 0 := by
  refine ⟨fun obj altitude limitingMag h => by rw [calculateVisibilityScore, if_pos h],
    fun obj altitude limitingMag => ?_, ?_⟩
  · rw [calculateVisibilityScore]
    by_cases h : altitude < 0
    · rw [if_pos h]; omega
    · rw [if_neg h]
      exact ⟨le_min (by norm_num) (le_max_left _ _), min_le_left _ _⟩
  · rw [calculateVisibilityScore, if_pos (by norm_num : (-1 : ℝ) < 0)]

/-- Witness for C7 at the boundary instance of the claim. -/
theorem calculateVisibilityScore_spec_witness :
    ((-1 : ℝ) < 0) ∧ calculateVisibilityScore ⟨0, 0, 5.8, none⟩ (-1) 5.8 = 0 :=
  ⟨by norm_num,
    calculateVisibilityScore_spec.1 ⟨0, 0, 5.8, none⟩ (-1) 5.8 (by norm_num)⟩

/-- C9: `getBortleInfo` rounds and clamps its argument into `[1, 9]`
before the table lookup, so it returns a defined `BORTLE_SCALE` entry for
every real input, and `bortleToSqm` always returns that entry's number. -/
theorem getBortleInfo_total :
    ∀ x : ℝ, ∃ info : BortleInfo,
      getBortleInfo x = some info ∧ bortleToSqm x = some info.sqm := by
  intro x
  rw [getBortleInfo, bortleToSqm, getBortleInfo]
  generalize jsRound x = j
  have h1 : 1 ≤ max 1 (min 9 j) := le_max_left 1 _
  have h9 : max 1 (min 9 j) ≤ 9 := by omega
  set k := max 1 (min 9 j) with hk
  interval_cases k <;> exact ⟨_, rfl, rfl⟩

/-- C10: the decimal-degree branch of `parseCoordinate` performs no
range validation and no unit conversion: any string matching
`[+-]digits[.digits][°]` is returned as its `parseFloat` value unchanged
for both coordinate types; `"999"` as a declination yields 999 (outside
`[-90, 90]`), and `"540"` as a right ascension stays 540 in degrees
(no `× 15`, no wrap into `[0, 360)`). -/
theorem parseCoordinate_decimal_passthrough :
    (∀ (s : String) (v : ℚ) (ty : String), decMatch (jsTrim s) = some v →
      parseCoordinate s ty = some v) ∧
    parseCoordinate "999" "dec" = some 999 ∧ ¬((999 : ℚ) ≤ 90) ∧
    parseCoordinate "540" "ra" = some 540 ∧ ¬((540 : ℚ) < 360) := by
  refine ⟨fun s v ty h => ?_,
    by simp +decide [parseCoordinate, jsTrim, isWsp, decMatch, takeDigits, natVal, fracVal,
      digitVal, List.dropWhile] <;> norm_num,
    by norm_num,
    by simp +decide [parseCoordinate, jsTrim, isWsp, decMatch, takeDigits, natVal, fracVal,
      digitVal, List.dropWhile] <;> norm_num,
    by norm_num⟩
  rw [parseCoordinate, h]

/-- Witness for C10: the decimal branch fires on `"999"`. -/
theorem parseCoordinate_decimal_passthrough_witness :
    decMatch (jsTrim "999") = some 999 ∧
      parseCoordinate "999" "ra" = some 999 := by
  have h : decMatch (jsTrim "999") = some 999 := by
    simp +decide [jsTrim, isWsp, decMatch, takeDigits, natVal, fracVal, digitVal,
      List.dropWhile] <;> norm_num
  exact ⟨h, parseCoordinate_decimal_passthrough.1 "999" 999 "ra" h⟩

/-- C8: domain-excluded requests return `null`: `calculatePlanetPosition`
on any spelling of `"earth"` returns `none`, and
`calculateNextPlanetaryEvent` for `'opposition'` returns `none` for every
planet with semi-major axis `a < 1` (an inferior planet). -/
theorem planet_null_domains :
    (∀ (name : String) (date : JsDate), jsToLower name = "earth" →
      calculatePlanetPosition name date = none) ∧
    (∀ (name : String) (startDate : JsDate) (p : PlanetData),
      PLANETS (jsToLower name) = some p → p.a < 1 →
      calculateNextPlanetaryEvent name startDate "opposition" = none) := by
  constructor
  · intro name date h
    rw [calculatePlanetPosition, if_pos h]
  · intro name startDate p hp ha
    rw [calculateNextPlanetaryEvent, hp]
    simp [ha]

/-- Witness for C8 at `"Earth"` (upper case) and Venus. -/
theorem planet_null_domains_witness :
    calculatePlanetPosition "Earth" ⟨2024, 1, 1, 0, 0, 0, 0⟩ = none ∧
      calculateNextPlanetaryEvent "venus" ⟨2024, 1, 1, 0, 0, 0, 0⟩ "opposition" = none := by
  constructor
  · exact planet_null_domains.1 "Earth" ⟨2024, 1, 1, 0, 0, 0, 0⟩ (by rfl)
  · refine planet_null_domains.2 "venus" ⟨2024, 1, 1, 0, 0, 0, 0⟩
      ⟨0.72333566, 0.00677672, 3.39467605, 181.97909950, 131.60246718, 76.67984255,
        0.00000390, -0.00004107, -0.00078890, 58517.81538729, 0.00268329, -0.27769418,
        224.701, some 583.92⟩ (by rfl) (by norm_num)

/-- C6: `rankObjectsByVisibility` returns no entry whose current
altitude is undefined or `≤ 0`, and its output is sorted in descending
(non-increasing) order of `visibilityScore`. -/
theorem rankObjectsByVisibility_spec :
    ∀ (objects : List CatalogObject) (lat lon : ℝ) (date : JsDate)
      (limitingMag : ℝ),
      (∀ x ∈ rankObjectsByVisibility objects lat lon date limitingMag,
        ∃ a, x.currentAltitude = some a ∧ 0 < a) ∧
      List.Sorted (fun a b => b.visibilityScore ≤ a.visibilityScore)
        (rankObjectsByVisibility objects lat lon date limitingMag) := by
  intro objects lat lon date limitingMag
  constructor
  · intro x hx
    rw [rankObjectsByVisibility] at hx
    have hx2 := mem_sortByScoreDesc hx
    have hvis : x.isVisible = true := List.of_mem_filter hx2
    have hx3 : x ∈ (objects.map (rankOne (lst (((dateToJulian date : ℚ) : ℝ)) lon)
        lat limitingMag)) := List.mem_of_mem_filter hx2
    obtain ⟨obj, _, hobj⟩ := List.mem_map.mp hx3
    subst hobj
    rw [rankOne] at hvis ⊢
    simp only at hvis ⊢
    rcases halt : (raDecToAltAz (if obj.ra < 24 then obj.ra * 15 else obj.ra)
        obj.dec lat (lst (((dateToJulian date : ℚ) : ℝ)) lon)).1 with _ | a
    · rw [halt] at hvis
      simp [optGt] at hvis
    · rw [halt] at hvis
      simp only [optGt, decide_eq_true_eq] at hvis
      exact ⟨a, rfl, hvis⟩
  · exact sorted_sortByScoreDesc _

-- ===========================================================================
-- Rise/transit/set offset (C1)
-- ===========================================================================

theorem toRadians_zero : toRadians 0 = 0 := by
  rw [toRadians]; ring

theorem toDegrees_arccos_zero : toDegrees (Real.arccos 0) = 90 := by
  rw [toDegrees, Real.arccos_zero]
  field_simp
  ring

/-- C1 (amended): in the normal outcome (−1 ≤ cos H ≤ 1 with a nonzero
denominator), `calculateRiseTransitSet` returns
`rise = transit − H/15 hours` and `set = transit + H/15 hours` applied
directly in milliseconds; the offset is **not** divided by the
sidereal-to-solar ratio (only `calculateTransit` itself uses the ratio). -/
theorem riseTransitSet_normal (ra dec lat lon : ℝ) (date : JsDate) (h0 : ℝ)
    (hden : Real.cos (toRadians lat) * Real.cos (toRadians dec) ≠ 0)
    (hlo : -1 ≤ (Real.sin (toRadians h0) - Real.sin (toRadians lat) * Real.sin (toRadians dec)) /
      (Real.cos (toRadians lat) * Real.cos (toRadians dec)))
    (hhi : (Real.sin (toRadians h0) - Real.sin (toRadians lat) * Real.sin (toRadians dec)) /
      (Real.cos (toRadians lat) * Real.cos (toRadians dec)) ≤ 1) :
    calculateRiseTransitSet ra dec lat lon date h0 =
      ⟨false, false,
        some (calculateTransit ra lon date -
          toDegrees (Real.arccos ((Real.sin (toRadians h0) -
            Real.sin (toRadians lat) * Real.sin (toRadians dec)) /
            (Real.cos (toRadians lat) * Real.cos (toRadians dec)))) / 15 * 3600000),
        some (calculateTransit ra lon date),
        some (calculateTransit ra lon date +
          toDegrees (Real.arccos ((Real.sin (toRadians h0) -
            Real.sin (toRadians lat) * Real.sin (toRadians dec)) /
            (Real.cos (toRadians lat) * Real.cos (toRadians dec)))) / 15 * 3600000)⟩ := by
  rw [calculateRiseTransitSet]
  rw [jsDiv, if_neg hden]
  rw [if_neg (by rw [JsDivR.ltVal]; exact not_lt.mpr hlo)]
  rw [if_neg (by rw [JsDivR.gtVal]; exact not_lt.mpr hhi)]
  rw [jsAcosDeg]
  rw [if_neg (by push_neg; exact ⟨hlo, hhi⟩)]
  rfl

/-- Witness for C1's amended theorem at the equator with a zero horizon
angle, where `cos H = 0` and `H = 90°`. -/
theorem riseTransitSet_normal_witness :
    Real.cos (toRadians 0) * Real.cos (toRadians 0) ≠ 0 ∧
      calculateRiseTransitSet 0 0 0 0 ⟨2000, 1, 1, 0, 0, 0, 0⟩ 0 =
      ⟨false, false,
        some (calculateTransit 0 0 ⟨2000, 1, 1, 0, 0, 0, 0⟩ -
          toDegrees (Real.arccos ((Real.sin (toRadians 0) -
            Real.sin (toRadians 0) * Real.sin (toRadians 0)) /
            (Real.cos (toRadians 0) * Real.cos (toRadians 0)))) / 15 * 3600000),
        some (calculateTransit 0 0 ⟨2000, 1, 1, 0, 0, 0, 0⟩),
        some (calculateTransit 0 0 ⟨2000, 1, 1, 0, 0, 0, 0⟩ +
          toDegrees (Real.arccos ((Real.sin (toRadians 0) -
            Real.sin (toRadians 0) * Real.sin (toRadians 0)) /
            (Real.cos (toRadians 0) * Real.cos (toRadians 0)))) / 15 * 3600000)⟩ := by
  have hden : Real.cos (toRadians 0) * Real.cos (toRadians 0) ≠ 0 := by
    rw [toRadians_zero, Real.cos_zero]; norm_num
  have hq : (Real.sin (toRadians 0) - Real.sin (toRadians 0) * Real.sin (toRadians 0)) /
      (Real.cos (toRadians 0) * Real.cos (toRadians 0)) = 0 := by
    rw [toRadians_zero, Real.sin_zero, Real.cos_zero]; norm_num
  exact ⟨hden, riseTransitSet_normal 0 0 0 0 ⟨2000, 1, 1, 0, 0, 0, 0⟩ 0 hden
    (by rw [hq]; norm_num) (by rw [hq]; norm_num)⟩

/-- C1 counterexample: at `(ra, dec, lat, lon, h0) = (0, 0, 0, 0, 0)` on
2000-01-01 the outcome is normal with `cos H = 0` and `H = 90°`, and the
returned rise is `transit − 6 h` exactly — not `transit − 6 h` divided by
the sidereal-to-solar ratio as the claim states (likewise for the set). -/
theorem riseTransitSet_offset_not_sidereal_scaled :
    (calculateRiseTransitSet 0 0 0 0 ⟨2000, 1, 1, 0, 0, 0, 0⟩ 0).circumpolar = false ∧
    (calculateRiseTransitSet 0 0 0 0 ⟨2000, 1, 1, 0, 0, 0, 0⟩ 0).neverRises = false ∧
    (calculateRiseTransitSet 0 0 0 0 ⟨2000, 1, 1, 0, 0, 0, 0⟩ 0).rise =
      (calculateRiseTransitSet 0 0 0 0 ⟨2000, 1, 1, 0, 0, 0, 0⟩ 0).transit.map
        (fun tr => tr - 90 / 15 * 3600000) ∧
    (calculateRiseTransitSet 0 0 0 0 ⟨2000, 1, 1, 0, 0, 0, 0⟩ 0).rise ≠
      (calculateRiseTransitSet 0 0 0 0 ⟨2000, 1, 1, 0, 0, 0, 0⟩ 0).transit.map
        (fun tr => tr - 90 / 15 * 3600000 / siderealRatio) ∧
    (calculateRiseTransitSet 0 0 0 0 ⟨2000, 1, 1, 0, 0, 0, 0⟩ 0).set ≠
      (calculateRiseTransitSet 0 0 0 0 ⟨2000, 1, 1, 0, 0, 0, 0⟩ 0).transit.map
        (fun tr => tr + 90 / 15 * 3600000 / siderealRatio) := by
  have hden : Real.cos (toRadians 0) * Real.cos (toRadians 0) ≠ 0 := by
    rw [toRadians_zero, Real.cos_zero]; norm_num
  have hq : (Real.sin (toRadians 0) - Real.sin (toRadians 0) * Real.sin (toRadians 0)) /
      (Real.cos (toRadians 0) * Real.cos (toRadians 0)) = 0 := by
    rw [toRadians_zero, Real.sin_zero, Real.cos_zero]; norm_num
  have h := riseTransitSet_normal 0 0 0 0 ⟨2000, 1, 1, 0, 0, 0, 0⟩ 0 hden
    (by rw [hq]; norm_num) (by rw [hq]; norm_num)
  have hoff : toDegrees (Real.arccos ((Real.sin (toRadians 0) -
      Real.sin (toRadians 0) * Real.sin (toRadians 0)) /
      (Real.cos (toRadians 0) * Real.cos (toRadians 0)))) = 90 := by
    rw [hq, toDegrees_arccos_zero]
  refine ⟨by rw [h], by rw [h], ?_, ?_, ?_⟩
  · rw [h, hoff]
    rfl
  · rw [h, hoff]
    intro hc
    have h2 : calculateTransit 0 0 ⟨2000, 1, 1, 0, 0, 0, 0⟩ - 90 / 15 * 3600000 =
        calculateTransit 0 0 ⟨2000, 1, 1, 0, 0, 0, 0⟩ - 90 / 15 * 3600000 / siderealRatio :=
      Option.some.inj hc
    have h3 : (90 : ℝ) / 15 * 3600000 = 90 / 15 * 3600000 / siderealRatio := by linarith
    rw [siderealRatio] at h3
    norm_num at h3
  · rw [h, hoff]
    intro hc
    have h2 : calculateTransit 0 0 ⟨2000, 1, 1, 0, 0, 0, 0⟩ + 90 / 15 * 3600000 =
        calculateTransit 0 0 ⟨2000, 1, 1, 0, 0, 0, 0⟩ + 90 / 15 * 3600000 / siderealRatio :=
      Option.some.inj hc
    have h3 : (90 : ℝ) / 15 * 3600000 = 90 / 15 * 3600000 / siderealRatio := by linarith
    rw [siderealRatio] at h3
    norm_num at h3

-- ===========================================================================
-- Coordinate transform clamping (C3)
-- ===========================================================================

/-- C3 (code-bug evidence): with the object at the observer's zenith
family `dec = lat`, hour angle zero (`lst = ra`), the argument the
source passes **unclamped** to `Math.asin` inside `raDecToAltAz` is
exactly `sin² φ + cos² φ = 1` — the edge of `asin`'s domain — and the
model returns the boundary altitude 90°.  Any upward rounding of that
argument (in IEEE doubles `sin(x)² + cos(x)²` evaluates to
`1.0000000000000002` for many latitudes) lands in the region where the
embedded `Math.asin` (`jsAsin`) returns `NaN` (`none`), while the clamp
the spec requires — `max(-1, min(1, ·))`, exactly what the source
applies to its `acos` arguments — would instead return the boundary
value `asin 1`. -/
theorem asin_edge_unclamped (r d x : ℝ) (hx : 1 < x) :
    (raDecToAltAz r d d r).1 = some 90 ∧ jsAsin x = none ∧
      jsAsin (max (-1) (min 1 x)) = some (Real.arcsin 1) := by
  have h0 : toRadians (r - r) = 0 := by
    rw [sub_self, toRadians]
    ring
  have hsin : Real.sin (toRadians d) * Real.sin (toRadians d) +
      Real.cos (toRadians d) * Real.cos (toRadians d) * Real.cos (toRadians (r - r)) = 1 := by
    rw [h0, Real.cos_zero, mul_one]
    have h := Real.sin_sq_add_cos_sq (toRadians d)
    nlinarith [h]
  have hjs : jsAsin 1 = some (Real.arcsin 1) := by
    rw [jsAsin, if_neg (by norm_num)]
  refine ⟨?_, ?_, ?_⟩
  · rw [raDecToAltAz, hsin, hjs]
    show some (toDegrees (Real.arcsin 1)) = some 90
    rw [Real.arcsin_one, Option.some.injEq, toDegrees]
    have hpi : Real.pi ≠ 0 := Real.pi_ne_zero
    field_simp
    ring
  · rw [jsAsin, if_pos (Or.inr hx)]
  · have h1 : min 1 x = 1 := min_eq_left hx.le
    have h2 : max (-1 : ℝ) 1 = 1 := by norm_num
    rw [h1, h2, jsAsin, if_neg (by norm_num)]

/-- Witness for the `asin` edge theorem at `ra = lst = 0`, `dec = lat = 0`
and overshoot argument `x = 2`. -/
theorem asin_edge_unclamped_witness :
    (1 : ℝ) < 2 ∧ ((raDecToAltAz 0 0 0 0).1 = some 90 ∧ jsAsin 2 = none ∧
      jsAsin (max (-1) (min 1 2)) = some (Real.arcsin 1)) :=
  ⟨by norm_num, asin_edge_unclamped 0 0 2 (by norm_num)⟩

-- ===========================================================================
-- Twilight recursion depth (C2)
-- ===========================================================================

theorem toRadians_toDegrees (x : ℝ) : toRadians (toDegrees x) = x := by
  rw [toRadians, toDegrees]
  have hpi : Real.pi ≠ 0 := Real.pi_ne_zero
  field_simp

theorem cos_arcsin_ge (eps lam : ℝ) (h0 : 0 ≤ eps) (h1 : eps ≤ 0.42) :
    (0.9 : ℝ) ≤ Real.cos (Real.arcsin (Real.sin eps * Real.sin lam)) := by
  rw [Real.cos_arcsin]
  have hpi3 : (3 : ℝ) < Real.pi := Real.pi_gt_three
  have hs0 : 0 ≤ Real.sin eps :=
    Real.sin_nonneg_of_nonneg_of_le_pi h0 (by nlinarith)
  have hsle : Real.sin eps ≤ eps := Real.sin_le h0
  have hl1 : -1 ≤ Real.sin lam := Real.neg_one_le_sin lam
  have hl2 : Real.sin lam ≤ 1 := Real.sin_le_one lam
  have hsq : (Real.sin eps * Real.sin lam) ^ 2 ≤ 0.1764 := by
    have he0 : (0:ℝ) ≤ eps ^ 2 := sq_nonneg eps
    have h2 : (Real.sin lam) ^ 2 ≤ 1 := by nlinarith
    have h3 : (Real.sin eps) ^ 2 ≤ eps ^ 2 := by nlinarith
    have h4 : eps ^ 2 ≤ 0.1764 := by nlinarith
    have h5 : (Real.sin eps) ^ 2 * (Real.sin lam) ^ 2 ≤ eps ^ 2 * 1 :=
      mul_le_mul h3 h2 (sq_nonneg _) he0
    nlinarith
  rw [Real.le_sqrt (by norm_num : (0:ℝ) ≤ 0.9) (by nlinarith)]
  nlinarith

theorem abs_sin_toRadians_neg18 : |Real.sin (toRadians (-18))| ≤ 0.315 := by
  have h : toRadians (-18) = -(Real.pi / 10) := by rw [toRadians]; ring
  rw [h, Real.sin_neg, abs_neg]
  have hpi3 : (3 : ℝ) < Real.pi := Real.pi_gt_three
  have hpi315 : Real.pi < 3.15 := Real.pi_lt_d2
  have h0 : (0:ℝ) ≤ Real.pi / 10 := by positivity
  have hle : Real.sin (Real.pi / 10) ≤ Real.pi / 10 := Real.sin_le h0
  have hge : 0 ≤ Real.sin (Real.pi / 10) :=
    Real.sin_nonneg_of_nonneg_of_le_pi h0 (by nlinarith)
  rw [abs_of_nonneg hge]
  nlinarith

theorem sunRiseSet_defined (sunDec lat lon : ℝ) (date : JsDate) (h0 q : ℝ)
    (hden : Real.cos (toRadians lat) * Real.cos (toRadians sunDec) ≠ 0)
    (hq : (Real.sin (toRadians h0) -
        Real.sin (toRadians lat) * Real.sin (toRadians sunDec)) /
      (Real.cos (toRadians lat) * Real.cos (toRadians sunDec)) = q)
    (hlo : -1 < q) (hhi : q < 1) :
    (calculateSunRiseSet sunDec lat lon date h0).rise.isSome = true ∧
    (calculateSunRiseSet sunDec lat lon date h0).set.isSome = true := by
  have hq1 : ¬(q < -1 ∨ 1 < q) := by push_neg; exact ⟨hlo.le, hhi.le⟩
  have hnotlt : ¬((JsDivR.val q).ltVal (-1) ∨ (JsDivR.val q).gtVal 1) := by
    simp only [JsDivR.ltVal, JsDivR.gtVal]
    push_neg
    exact ⟨hlo.le, hhi.le⟩
  simp only [calculateSunRiseSet]
  rw [jsDiv, if_neg hden, hq, if_neg hnotlt]
  simp only [jsAcosDeg, if_neg hq1, Option.map_some', Option.isSome_some, and_self]

theorem twilightGuard_equator (lon : ℝ) (date : JsDate)
    (h23 : 23 ≤ meanObliquity (((dateToJulian date : ℚ) : ℝ)))
    (h24 : meanObliquity (((dateToJulian date : ℚ) : ℝ)) ≤ 24) :
    twilightGuard 0 lon date := by
  have hpi3 : (3 : ℝ) < Real.pi := Real.pi_gt_three
  have hpi315 : Real.pi < 3.15 := Real.pi_lt_d2
  obtain ⟨lam, hlam⟩ : ∃ lam, (approximateSunPosition date).dec =
      toDegrees (Real.arcsin
        (Real.sin (toRadians (meanObliquity (((dateToJulian date : ℚ) : ℝ)))) *
          Real.sin lam)) := ⟨_, rfl⟩
  have heps0 : 0 ≤ toRadians (meanObliquity (((dateToJulian date : ℚ) : ℝ))) := by
    rw [toRadians]
    have hm : (0:ℝ) ≤ meanObliquity (((dateToJulian date : ℚ) : ℝ)) := by linarith
    have hp : (0:ℝ) ≤ Real.pi / 180 := by positivity
    exact mul_nonneg hm hp
  have heps1 : toRadians (meanObliquity (((dateToJulian date : ℚ) : ℝ))) ≤ 0.42 := by
    rw [toRadians]
    have h1 : meanObliquity (((dateToJulian date : ℚ) : ℝ)) * (Real.pi / 180) ≤
        24 * (Real.pi / 180) := by
      apply mul_le_mul_of_nonneg_right h24
      positivity
    nlinarith
  have hcos : (0.9:ℝ) ≤ Real.cos (Real.arcsin
      (Real.sin (toRadians (meanObliquity (((dateToJulian date : ℚ) : ℝ)))) *
        Real.sin lam)) :=
    cos_arcsin_ge _ _ heps0 heps1
  have hDpos : (0:ℝ) < Real.cos (Real.arcsin
      (Real.sin (toRadians (meanObliquity (((dateToJulian date : ℚ) : ℝ)))) *
        Real.sin lam)) := lt_of_lt_of_le (by norm_num) hcos
  have h0rad : toRadians (0:ℝ) = 0 := by rw [toRadians]; ring
  have hdecR : toRadians ((approximateSunPosition date).dec) =
      Real.arcsin (Real.sin (toRadians (meanObliquity (((dateToJulian date : ℚ) : ℝ)))) *
        Real.sin lam) := by
    rw [hlam, toRadians_toDegrees]
  have hden : Real.cos (toRadians (0:ℝ)) *
      Real.cos (toRadians ((approximateSunPosition date).dec)) ≠ 0 := by
    rw [h0rad, Real.cos_zero, one_mul, hdecR]
    exact ne_of_gt hDpos
  have hnum : |Real.sin (toRadians (-18))| ≤ 0.315 := abs_sin_toRadians_neg18
  have habs : |Real.sin (toRadians (-18)) / Real.cos (Real.arcsin
      (Real.sin (toRadians (meanObliquity (((dateToJulian date : ℚ) : ℝ)))) *
        Real.sin lam))| < 1 := by
    rw [abs_div, abs_of_pos hDpos, div_lt_one hDpos]
    calc |Real.sin (toRadians (-18))| ≤ 0.315 := hnum
      _ < 0.9 := by norm_num
      _ ≤ _ := hcos
  have hqeq : (Real.sin (toRadians (-18)) -
      Real.sin (toRadians (0:ℝ)) * Real.sin (toRadians ((approximateSunPosition date).dec))) /
      (Real.cos (toRadians (0:ℝ)) * Real.cos (toRadians ((approximateSunPosition date).dec))) =
      Real.sin (toRadians (-18)) / Real.cos (Real.arcsin
        (Real.sin (toRadians (meanObliquity (((dateToJulian date : ℚ) : ℝ)))) *
          Real.sin lam)) := by
    rw [h0rad, Real.sin_zero, Real.cos_zero, zero_mul, sub_zero, one_mul, hdecR]
  have hmain := sunRiseSet_defined ((approximateSunPosition date).dec) 0 lon date (-18)
    (Real.sin (toRadians (-18)) / Real.cos (Real.arcsin
      (Real.sin (toRadians (meanObliquity (((dateToJulian date : ℚ) : ℝ)))) *
        Real.sin lam)))
    hden hqeq (abs_lt.mp habs).1 (abs_lt.mp habs).2
  exact ⟨hmain.2, hmain.1⟩

theorem meanObliquity_20240101_bounds :
    23 ≤ meanObliquity (((dateToJulian ⟨2024, 1, 1, 0, 0, 0, 0⟩ : ℚ) : ℝ)) ∧
    meanObliquity (((dateToJulian ⟨2024, 1, 1, 0, 0, 0, 0⟩ : ℚ) : ℝ)) ≤ 24 := by
  have h : (dateToJulian ⟨2024, 1, 1, 0, 0, 0, 0⟩ : ℚ) = 2460310.5 := by
    norm_num [dateToJulian]
  rw [h]
  constructor <;> · rw [meanObliquity, julianCenturies]; push_cast; norm_num

theorem meanObliquity_20240102_bounds :
    23 ≤ meanObliquity (((dateToJulian ⟨2024, 1, 2, 0, 0, 0, 0⟩ : ℚ) : ℝ)) ∧
    meanObliquity (((dateToJulian ⟨2024, 1, 2, 0, 0, 0, 0⟩ : ℚ) : ℝ)) ≤ 24 := by
  have h : (dateToJulian ⟨2024, 1, 2, 0, 0, 0, 0⟩ : ℚ) = 2460311.5 := by
    norm_num [dateToJulian]
  rw [h]
  constructor <;> · rw [meanObliquity, julianCenturies]; push_cast; norm_num

/-- C2: the spec claims the `darknessDuration` recursion of
`calculateTwilightTimes` is at most one level deep.  At the concrete
input latitude 0, longitude 0, 2024-01-01T00:00:00Z the guard (both
astronomical dusk and dawn non-`null`) holds on the first day and again
on the next civil day, so the recursion reaches depth 2 within a
two-day observation window — the source has no depth limiter at all,
and each nested call satisfies the guard again. -/
theorem twilight_recursion_depth_exceeds_one :
    twilightGuard 0 0 ⟨2024, 1, 1, 0, 0, 0, 0⟩ ∧
    twilightRecDepth 2 0 0 ⟨2024, 1, 1, 0, 0, 0, 0⟩ = 2 ∧
    1 < twilightRecDepth 2 0 0 ⟨2024, 1, 1, 0, 0, 0, 0⟩ := by
  have hb0 := meanObliquity_20240101_bounds
  have hb1 := meanObliquity_20240102_bounds
  have hg0 : twilightGuard 0 0 ⟨2024, 1, 1, 0, 0, 0, 0⟩ :=
    twilightGuard_equator 0 ⟨2024, 1, 1, 0, 0, 0, 0⟩ hb0.1 hb0.2
  have hg1 : twilightGuard 0 0 ⟨2024, 1, 2, 0, 0, 0, 0⟩ :=
    twilightGuard_equator 0 ⟨2024, 1, 2, 0, 0, 0, 0⟩ hb1.1 hb1.2
  have hd1 : addMs ⟨2024, 1, 1, 0, 0, 0, 0⟩ 86400000 = ⟨2024, 1, 2, 0, 0, 0, 0⟩ := by
    decide
  have hdepth : twilightRecDepth 2 0 0 ⟨2024, 1, 1, 0, 0, 0, 0⟩ = 2 := by
    simp only [twilightRecDepth, if_pos hg0]
    rw [hd1, if_pos hg1]
  exact ⟨hg0, hdepth, by rw [hdepth]; norm_num⟩

end Astronomy
